import Mathlib

/-!
# mySocial-backend: follow graph, engagement toggles and cascading deletion

A shallow embedding of the request handlers of `src/controllers/userController.js`,
`src/controllers/postController.js`, `src/controllers/notificationController.js` and
`src/utils/createNotification.js` over an explicit store of four collections.  Collections are lists of documents in insertion
order; array-valued fields are lists, as MongoDB stores them.

The handlers are modelled as pure functions from a store to a response and a new
store.  The members of a `Promise.all` group are applied in the order they are
listed; every group in the modelled handlers consists of writes with filters fixed
beforehand, on different fields or with the same effect, so the order is immaterial.
The `createdAt`/`updatedAt` stamps that `timestamps: true` maintains on users and
posts are not part of the model.
-/

namespace MySocial

/-! ## Object identifiers -/

/-- A BSON ObjectId, kept as its hexadecimal nibbles (24 of them for a 12-byte id). -/
structure ObjectId where
  hex : List (Fin 16)
deriving DecidableEq, Repr

/-- Lower-case hexadecimal digit, as `ObjectId.prototype.toHexString` prints it. -/
def hexChar (d : Fin 16) : Char :=
  if d.val < 10 then Char.ofNat (48 + d.val) else Char.ofNat (87 + d.val)

/-- Value of a hexadecimal digit of either case (`/^[0-9a-fA-F]{24}$/`). -/
def hexVal (c : Char) : Option (Fin 16) :=
  if 48 ≤ c.toNat ∧ c.toNat ≤ 57 then some (Fin.ofNat (c.toNat - 48))
  else if 97 ≤ c.toNat ∧ c.toNat ≤ 102 then some (Fin.ofNat (c.toNat - 87))
  else if 65 ≤ c.toNat ∧ c.toNat ≤ 70 then some (Fin.ofNat (c.toNat - 55))
  else none

/-- Parse a sequence of hexadecimal digits; `none` as soon as one is not a digit. -/
def parseHex : List Char → Option (List (Fin 16))
  | [] => some []
  | c :: cs =>
    match hexVal c with
    | none => none
    | some d =>
      match parseHex cs with
      | none => none
      | some ds => some (d :: ds)

/-- The string form `loginUserId.toString()`: 24 lower-case hexadecimal digits. -/
def ObjectId.toString (o : ObjectId) : String :=
  String.mk (o.hex.map hexChar)

/-- The cast Mongoose applies to a string used where an ObjectId is expected
(`findById(req.params.id)`, update operands, document fields): a string of 24
hexadecimal digits of either case is accepted, anything else is a `CastError`.
(Old driver versions also read a 12-character string as raw bytes; that path is not
modelled.) -/
def castObjectId (s : String) : Option ObjectId :=
  if s.data.length = 24 then (parseHex s.data).map ObjectId.mk else none

/-! ## Documents -/

/-- The `image` sub-document of a post. -/
structure Image where
  url : String
  publicId : String
deriving DecidableEq, Repr

/-- A document of `src/models/userModel.js`. -/
structure User where
  _id : ObjectId
  name : String
  username : String
  email : String
  password : String
  passwordConfirm : Option String
  profilePicture : Option String
  bio : String
  followers : List ObjectId
  following : List ObjectId
  posts : List ObjectId
  savedPosts : List ObjectId
  isVerified : Bool
  otp : Option String
  otpExpires : Option Nat
  resetPasswordOTP : Option String
  resetPasswordOTPExpires : Option Nat
deriving DecidableEq, Repr

/-- A document of `src/models/postModel.js`. -/
structure Post where
  _id : ObjectId
  caption : String
  image : Image
  user : ObjectId
  likes : List ObjectId
  comments : List ObjectId
deriving DecidableEq, Repr

/-- Modelled from the spec: `models/commentModel.js` is not among the sources.  The
fields are those of the spec (identifier, authoring user, owning post, text) and the
`createdAt` that `addComment` passes; `post` is optional because a document is stored
with the fields it was created with. -/
structure Comment where
  _id : ObjectId
  text : String
  user : ObjectId
  post : Option ObjectId
  createdAt : Nat
deriving DecidableEq, Repr

/-- The `type` of a notification. -/
inductive NotificationType where
  | follow
  | like
  | save
  | comment
deriving DecidableEq, Repr

/-- Modelled from the spec: `models/notificationModel.js` is not among the sources.
The fields are those of the spec (sender, receiver, optional post and comment, type,
`isRead` with default false, creation time); a reference the caller left undefined
is absent from the document. -/
structure Notification where
  _id : ObjectId
  sender : Option ObjectId
  receiver : Option ObjectId
  post : Option ObjectId
  comment : Option ObjectId
  type : NotificationType
  isRead : Bool
  createdAt : Nat
deriving DecidableEq, Repr

/-- The four collections. -/
structure Store where
  users : List User
  posts : List Post
  comments : List Comment
  notifications : List Notification
deriving DecidableEq, Repr

/-- What a request gets from outside the store: the identifiers the driver generates
for created documents, the clock, whether `notification.save()` goes through (schema
validation and the write itself), and whether the media store releases an object. -/
structure Env where
  commentId : ObjectId
  notificationId : ObjectId
  now : Nat
  notificationSaves : Notification → Bool
  cloudinaryDestroys : String → Bool

/-! ## Store primitives -/

/-- The array operator `$pull` with a single value: every occurrence goes. -/
def pull (x : ObjectId) (arr : List ObjectId) : List ObjectId :=
  arr.filter (fun y => decide (y ≠ x))

/-- The array operator `$pull` with `{ $in: xs }`. -/
def pullIn (xs : List ObjectId) (arr : List ObjectId) : List ObjectId :=
  arr.filter (fun y => decide (y ∉ xs))

/-- The array operator `$addToSet`: appended unless already present. -/
def addToSet (x : ObjectId) (arr : List ObjectId) : List ObjectId :=
  if x ∈ arr then arr else arr ++ [x]

/-- The operation `Model.updateOne(filter, update)`: the first matching document is updated. -/
def updateOne {α : Type} (filter : α → Bool) (update : α → α) : List α → List α
  | [] => []
  | d :: ds => if filter d then update d :: ds else d :: updateOne filter update ds

/-- The operation `Model.updateMany(filter, update)`. -/
def updateMany {α : Type} (filter : α → Bool) (update : α → α) (docs : List α) : List α :=
  docs.map (fun d => if filter d then update d else d)

/-- The operation `Model.deleteMany(filter)`. -/
def deleteMany {α : Type} (filter : α → Bool) (docs : List α) : List α :=
  docs.filter (fun d => !filter d)

/-- The operation `Model.findByIdAndDelete(id)`, given the `_id` test: the first match goes. -/
def deleteOne {α : Type} (filter : α → Bool) : List α → List α
  | [] => []
  | d :: ds => if filter d then ds else d :: deleteOne filter ds

/-- The lookup `User.findById(id)`. -/
def findUser (users : List User) (id : ObjectId) : Option User :=
  users.find? (fun u => decide (u._id = id))

/-- The lookup `Post.findById(id)`. -/
def findPost (posts : List Post) (id : ObjectId) : Option Post :=
  posts.find? (fun p => decide (p._id = id))

/-! ## Responses -/

/-- The projection `.select("-password")` of a user, with the `postCount` virtual that
`toJSON: { virtuals: true }` adds. -/
structure UserView where
  _id : ObjectId
  name : String
  username : String
  email : String
  passwordConfirm : Option String
  profilePicture : Option String
  bio : String
  followers : List ObjectId
  following : List ObjectId
  posts : List ObjectId
  savedPosts : List ObjectId
  isVerified : Bool
  otp : Option String
  otpExpires : Option Nat
  resetPasswordOTP : Option String
  resetPasswordOTPExpires : Option Nat
  postCount : Nat
deriving DecidableEq, Repr

/-- The projection `.select("-password")`. -/
def selectMinusPassword (u : User) : UserView :=
  { _id := u._id, name := u.name, username := u.username, email := u.email,
    passwordConfirm := u.passwordConfirm, profilePicture := u.profilePicture,
    bio := u.bio, followers := u.followers, following := u.following,
    posts := u.posts, savedPosts := u.savedPosts, isVerified := u.isVerified,
    otp := u.otp, otpExpires := u.otpExpires, resetPasswordOTP := u.resetPasswordOTP,
    resetPasswordOTPExpires := u.resetPasswordOTPExpires, postCount := u.posts.length }

/-- What the client receives: the HTTP status, the `status` and `message` of the
JSON body, and the documents under `data`. -/
structure Response where
  statusCode : Nat
  status : String
  message : String
  user : Option UserView
  comment : Option Comment
deriving DecidableEq, Repr

/-- The response to `next(new AppError(message, statusCode))` (`utils/appError.js`,
`controllers/errorController.js`): every status code the handlers pass starts with 4. -/
def appError (message : String) (statusCode : Nat) : Response :=
  { statusCode := statusCode,
    status := if (Nat.repr statusCode).data.head? = some '4' then "fail" else "error",
    message := message, user := none, comment := none }

/-- The response to an exception thrown inside a handler (a `CastError`, a
`TypeError`, a rejected media call): the `catchAsync` wrapper hands it to `next`, it
has no `statusCode`, so `errorController` answers 500 with status `error`. -/
def thrown (message : String) : Response :=
  { statusCode := 500, status := "error", message := message, user := none, comment := none }

/-- The response of `res.status(code).json({ status: "success", message, data })`. -/
def success (statusCode : Nat) (message : String) (user : Option UserView)
    (comment : Option Comment) : Response :=
  { statusCode := statusCode, status := "success", message := message,
    user := user, comment := comment }

/-! ## Notification fan-out (`src/utils/createNotification.js`) -/

/-- The object literal a caller passes to `createdNotification`.  The keys are those
the callers write; `reciever` is the key `likeOrDislikePost` uses. -/
structure NotificationArgs where
  sender : Option ObjectId
  receiver : Option ObjectId
  reciever : Option ObjectId
  post : Option ObjectId
  comment : Option ObjectId
  type : NotificationType
  isRead : Option Bool

/-- The function `createdNotification`: the parameter list destructures `sender`,
`receiver`, `post`, `comment`, `type`, `isRead` and nothing else; the document is
saved, and a failure of the save is caught and logged. -/
def createdNotification (env : Env) (notifications : List Notification)
    (args : NotificationArgs) : List Notification :=
  let notification : Notification :=
    { _id := env.notificationId, sender := args.sender, receiver := args.receiver,
      post := args.post, comment := args.comment, type := args.type,
      isRead := args.isRead.getD false, createdAt := env.now }
  if env.notificationSaves notification then notifications ++ [notification]
  else notifications

/-! ## Relationship graph (`src/controllers/userController.js`) -/

/-- The handler `followUnfollow`, with `loginUserId = req.user._id` and
`targetUserId = req.params.id`. -/
def followUnfollow (env : Env) (s : Store) (loginUserId : ObjectId)
    (targetUserId : String) : Response × Store :=
  if loginUserId.toString = targetUserId then
    (appError "You cannot follow or unfollow yourself" 400, s)
  else
    match castObjectId targetUserId with
    | none => (thrown "Cast to ObjectId failed", s)
    | some targetId =>
      match findUser s.users targetId with
      | none => (appError "User not found" 404, s)
      | some targetUser =>
        let isFollowing := decide (loginUserId ∈ targetUser.followers)
        let s1 : Store :=
          if isFollowing then
            let users1 := updateOne (fun u => decide (u._id = loginUserId))
              (fun u => { u with following := pull targetId u.following }) s.users
            let users2 := updateOne (fun u => decide (u._id = targetUser._id))
              (fun u => { u with followers := pull loginUserId u.followers }) users1
            { s with users := users2 }
          else
            let users1 := updateOne (fun u => decide (u._id = loginUserId))
              (fun u => { u with following := addToSet targetId u.following }) s.users
            let users2 := updateOne (fun u => decide (u._id = targetId))
              (fun u => { u with followers := addToSet loginUserId u.followers }) users1
            { s with
              users := users2,
              notifications := createdNotification env s.notifications
                { sender := some loginUserId, receiver := some targetId, reciever := none,
                  post := none, comment := none, type := NotificationType.follow,
                  isRead := none } }
        let updatedLoggedInUser := (findUser s1.users loginUserId).map selectMinusPassword
        (success 200
          (if isFollowing then "Unfollowed successfully" else "Followed successfully")
          updatedLoggedInUser none, s1)

/-- The handler `deleteAccount`, with `userId = req.user._id`. -/
def deleteAccount (s : Store) (userId : ObjectId) : Response × Store :=
  match findUser s.users userId with
  | none => (appError "User not found" 404, s)
  | some _ =>
    let userPosts := ((s.posts.filter (fun p => decide (p.user = userId))).map Post._id).dedup
    let userComments :=
      ((s.comments.filter (fun c => decide (c.user = userId))).map Comment._id).dedup
    let posts1 := deleteMany (fun p : Post => decide (p.user = userId)) s.posts
    let comments1 := deleteMany (fun c : Comment => decide (c.user = userId)) s.comments
    let comments2 := deleteMany
      (fun c : Comment => match c.post with
        | some p => decide (p ∈ userPosts)
        | none => false) comments1
    let notifications1 := deleteMany
      (fun n : Notification => decide (n.receiver = some userId)) s.notifications
    let notifications2 := deleteMany
      (fun n : Notification => decide (n.sender = some userId)) notifications1
    let notifications3 := deleteMany
      (fun n : Notification => match n.post with
        | some p => decide (p ∈ userPosts)
        | none => false) notifications2
    let users1 := updateMany (fun u : User => decide (userId ∈ u.following))
      (fun u => { u with following := pull userId u.following }) s.users
    let users2 := updateMany (fun u : User => decide (userId ∈ u.followers))
      (fun u => { u with followers := pull userId u.followers }) users1
    let posts2 := updateMany (fun p : Post => decide (userId ∈ p.likes))
      (fun p => { p with likes := pull userId p.likes }) posts1
    let posts3 := updateMany (fun p : Post => p.comments.any (fun c => decide (c ∈ userComments)))
      (fun p => { p with comments := pullIn userComments p.comments }) posts2
    let users3 := deleteOne (fun u : User => decide (u._id = userId)) users2
    (success 200 "Account deleted successfully" none none,
      { users := users3, posts := posts3, comments := comments2,
        notifications := notifications3 })

/-! ## Engagement engine and post deletion (`src/controllers/postController.js`) -/

/-- The handler `deletePost`, with `id = req.params.id` and `userId = req.user._id`.
The owner is populated into `post.user`; when no such user exists `post.user` is
null and reading `post.user.id` throws. -/
def deletePost (env : Env) (s : Store) (userId : ObjectId) (id : String) :
    Response × Store :=
  match castObjectId id with
  | none => (thrown "Cast to ObjectId failed", s)
  | some postId =>
    match findPost s.posts postId with
    | none => (appError "Post not found" 404, s)
    | some post =>
      match findUser s.users post.user with
      | none => (thrown "Cannot read properties of null", s)
      | some owner =>
        if owner._id.toString ≠ userId.toString then
          (appError "You are not authorized to delete this post" 403, s)
        else
          let users1 := updateOne (fun u : User => decide (u._id = userId))
            (fun u => { u with posts := pull postId u.posts }) s.users
          let users2 := updateMany (fun u : User => decide (postId ∈ u.savedPosts))
            (fun u => { u with savedPosts := pull postId u.savedPosts }) users1
          let comments1 := deleteMany (fun c : Comment => decide (c.post = some postId))
            s.comments
          let s1 : Store := { s with users := users2, comments := comments1 }
          if post.image.publicId ≠ "" ∧ env.cloudinaryDestroys post.image.publicId = false then
            (thrown "cloudinary destroy failed", s1)
          else
            let posts1 := deleteOne (fun p : Post => decide (p._id = postId)) s1.posts
            (success 200 "Post deleted successfully." none none, { s1 with posts := posts1 })

/-- The handler `likeOrDislikePost`, with `id = req.params.id` and
`userId = req.user._id`. -/
def likeOrDislikePost (env : Env) (s : Store) (userId : ObjectId) (id : String) :
    Response × Store :=
  match castObjectId id with
  | none => (thrown "Cast to ObjectId failed", s)
  | some postId =>
    match findPost s.posts postId with
    | none => (appError "Post not found" 404, s)
    | some post =>
      let isLiked := decide (userId ∈ post.likes)
      if isLiked then
        let posts1 := updateOne (fun p : Post => decide (p._id = postId))
          (fun p => { p with likes := pull userId p.likes }) s.posts
        (success 200 "Post disliked successfully." none none, { s with posts := posts1 })
      else
        let posts1 := updateOne (fun p : Post => decide (p._id = postId))
          (fun p => { p with likes := addToSet userId p.likes }) s.posts
        let notifications1 :=
          if post.user.toString ≠ userId.toString then
            createdNotification env s.notifications
              { sender := some userId, receiver := none, reciever := some post.user,
                post := some postId, comment := none, type := NotificationType.like,
                isRead := none }
          else s.notifications
        (success 200 "Post liked successfully." none none,
          { s with posts := posts1, notifications := notifications1 })

/-- The handler `addComment`, with `postId = req.params.id`, `userId = req.user._id`
and `text = req.body.text`.  `Comment.create` receives `text`, `user` and
`createdAt` and no other field. -/
def addComment (env : Env) (s : Store) (userId : ObjectId) (postId : String)
    (text : String) : Response × Store :=
  match castObjectId postId with
  | none => (thrown "Cast to ObjectId failed", s)
  | some pid =>
    match findPost s.posts pid with
    | none => (appError "Post not found." 404, s)
    | some post =>
      if text = "" then (appError "Comment text is required." 400, s)
      else
        let comment : Comment :=
          { _id := env.commentId, text := text, user := userId, post := none,
            createdAt := env.now }
        let comments1 := s.comments ++ [comment]
        let posts1 := updateOne (fun p : Post => decide (p._id = post._id))
          (fun p => { p with comments := p.comments ++ [comment._id] }) s.posts
        let notifications1 :=
          if post.user.toString ≠ userId.toString then
            createdNotification env s.notifications
              { sender := some userId, receiver := some post.user, reciever := none,
                post := some pid, comment := some comment._id,
                type := NotificationType.comment, isRead := none }
          else s.notifications
        (success 201 "Comment added successfully." none (some comment),
          { s with posts := posts1, comments := comments1, notifications := notifications1 })

/-- The handler `saveOrUnsave`, with `userId = req.user._id` and
`postId = req.params.postId`.  `user.savedPosts.includes(postId)` compares the raw
parameter with the string form of each element; `pull` and `push` cast the parameter;
`user.save()` sends the `$pull` or `$push` the array recorded.  The post is looked up
after the save, and `post.user` is read without a null check. -/
def saveOrUnsave (env : Env) (s : Store) (userId : ObjectId) (postId : String) :
    Response × Store :=
  match findUser s.users userId with
  | none => (appError "user not found" 404, s)
  | some user =>
    let isPostSaved := decide (postId ∈ user.savedPosts.map ObjectId.toString)
    if isPostSaved then
      match castObjectId postId with
      | none => (thrown "Cast to ObjectId failed", s)
      | some pid =>
        let users1 := updateOne (fun u : User => decide (u._id = userId))
          (fun u => { u with savedPosts := pull pid u.savedPosts }) s.users
        (success 200 "Post unsaved successfully."
          (some (selectMinusPassword { user with savedPosts := pull pid user.savedPosts }))
          none, { s with users := users1 })
    else
      match castObjectId postId with
      | none => (thrown "Cast to ObjectId failed", s)
      | some pid =>
        let users1 := updateOne (fun u : User => decide (u._id = userId))
          (fun u => { u with savedPosts := u.savedPosts ++ [pid] }) s.users
        let s1 : Store := { s with users := users1 }
        match findPost s.posts pid with
        | none => (thrown "Cannot read properties of null", s1)
        | some post =>
          let notifications1 :=
            if post.user.toString ≠ userId.toString then
              createdNotification env s.notifications
                { sender := some userId, receiver := some post.user, reciever := none,
                  post := some pid, comment := none, type := NotificationType.save,
                  isRead := none }
            else s.notifications
          (success 200 "Post saved successfully."
            (some (selectMinusPassword { user with savedPosts := user.savedPosts ++ [pid] }))
            none, { s1 with notifications := notifications1 })

/-! ## Read state (`src/controllers/notificationController.js`) -/

/-- The handler `markNotificationAsRead`, with `userId = req.user._id`.  The result
object of `updateMany` is never falsy, so the 400 branch is not taken. -/
def markNotificationAsRead (s : Store) (userId : ObjectId) : Response × Store :=
  let notifications1 := updateMany
    (fun n : Notification => decide (n.receiver = some userId) && decide (n.isRead = false))
    (fun n => { n with isRead := true }) s.notifications
  (success 200 "Notifications marked as read" none none,
    { s with notifications := notifications1 })

/-! ## Two concurrent toggles, step by step -/

/-- Which of two concurrent requests takes a step. -/
inductive Request where
  | first
  | second
deriving DecidableEq, Repr

/-- A step of a toggle: the read its decision is taken from, or the write that
follows it. -/
inductive ToggleStep where
  | read (r : Request)
  | write (r : Request)
deriving DecidableEq, Repr

/-- The store and what each of the two requests has read so far. -/
structure TwoRequests where
  store : Store
  first : Option Bool
  second : Option Bool
deriving DecidableEq, Repr

/-- The read of `saveOrUnsave` (postController.js 148-154): the user is loaded and
`isPostSaved` computed; nothing if the user is not found. -/
def saveOrUnsaveRead (s : Store) (userId : ObjectId) (postId : String) : Option Bool :=
  (findUser s.users userId).map
    (fun user => decide (postId ∈ user.savedPosts.map ObjectId.toString))

/-- The write of `saveOrUnsave` (postController.js 156-157 and 166-167) as it reaches
the store: `user.save()` sends the `$pull` or the `$push` recorded on the array,
and the store applies it to the document as it is then.  (A `$push` carries no
version condition; one that a `$pull` may carry is not modelled.) -/
def saveOrUnsaveWrite (s : Store) (userId pid : ObjectId) (isPostSaved : Bool) : Store :=
  if isPostSaved then
    let users1 := updateOne (fun u : User => decide (u._id = userId))
      (fun u => { u with savedPosts := pull pid u.savedPosts }) s.users
    { s with users := users1 }
  else
    let users1 := updateOne (fun u : User => decide (u._id = userId))
      (fun u => { u with savedPosts := u.savedPosts ++ [pid] }) s.users
    { s with users := users1 }

/-- One step of two concurrent `saveOrUnsave` requests of the same user for the same
post; a write before the read of the same request does nothing. -/
def saveOrUnsaveStep (userId : ObjectId) (postId : String) (st : TwoRequests) :
    ToggleStep → TwoRequests
  | ToggleStep.read Request.first =>
    { st with first := saveOrUnsaveRead st.store userId postId }
  | ToggleStep.read Request.second =>
    { st with second := saveOrUnsaveRead st.store userId postId }
  | ToggleStep.write Request.first =>
    match st.first, castObjectId postId with
    | some isPostSaved, some pid =>
      { st with store := saveOrUnsaveWrite st.store userId pid isPostSaved }
    | _, _ => st
  | ToggleStep.write Request.second =>
    match st.second, castObjectId postId with
    | some isPostSaved, some pid =>
      { st with store := saveOrUnsaveWrite st.store userId pid isPostSaved }
    | _, _ => st

/-- The store after a schedule of steps of two concurrent `saveOrUnsave` requests. -/
def saveOrUnsaveRun (userId : ObjectId) (postId : String) (steps : List ToggleStep)
    (s : Store) : Store :=
  (steps.foldl (saveOrUnsaveStep userId postId)
    { store := s, first := none, second := none }).store

/-- The read of `likeOrDislikePost` (postController.js 235-240). -/
def likeRead (s : Store) (userId postId : ObjectId) : Option Bool :=
  (findPost s.posts postId).map (fun post => decide (userId ∈ post.likes))

/-- The write of `likeOrDislikePost` (postController.js 243-247 and 254-258): one
`findByIdAndUpdate` with `$pull` or `$addToSet`. -/
def likeWrite (s : Store) (userId postId : ObjectId) (isLiked : Bool) : Store :=
  if isLiked then
    let posts1 := updateOne (fun p : Post => decide (p._id = postId))
      (fun p => { p with likes := pull userId p.likes }) s.posts
    { s with posts := posts1 }
  else
    let posts1 := updateOne (fun p : Post => decide (p._id = postId))
      (fun p => { p with likes := addToSet userId p.likes }) s.posts
    { s with posts := posts1 }

/-- One step of two concurrent `likeOrDislikePost` requests of the same user for the
same post. -/
def likeStep (userId postId : ObjectId) (st : TwoRequests) : ToggleStep → TwoRequests
  | ToggleStep.read Request.first => { st with first := likeRead st.store userId postId }
  | ToggleStep.read Request.second => { st with second := likeRead st.store userId postId }
  | ToggleStep.write Request.first =>
    match st.first with
    | some isLiked => { st with store := likeWrite st.store userId postId isLiked }
    | none => st
  | ToggleStep.write Request.second =>
    match st.second with
    | some isLiked => { st with store := likeWrite st.store userId postId isLiked }
    | none => st

/-- The store after a schedule of steps of two concurrent `likeOrDislikePost`
requests. -/
def likeRun (userId postId : ObjectId) (steps : List ToggleStep) (s : Store) : Store :=
  (steps.foldl (likeStep userId postId) { store := s, first := none, second := none }).store

/-- A write on a follow list by `followUnfollow` (userController.js 112-130): each of
the four `updateOne` calls is a `$pull` or an `$addToSet` of one identifier. -/
inductive SetWrite where
  | addToSet
  | pull
deriving DecidableEq, Repr

/-- The array after a sequence of `$addToSet` and `$pull` writes of the identifier `x`,
in the order the store receives them. -/
def applyWrites (x : ObjectId) (arr : List ObjectId) : List SetWrite → List ObjectId
  | [] => arr
  | SetWrite.addToSet :: ws => applyWrites x (addToSet x arr) ws
  | SetWrite.pull :: ws => applyWrites x (pull x arr) ws

/-! ## Properties of a store -/

/-- No two user documents have the same `_id` (the store enforces it). -/
abbrev UniqueIds (users : List User) : Prop :=
  (users.map User._id).Nodup

/-- Follow-graph symmetry: for all users X and Y in the collection, X is in
Y.followers exactly when Y is in X.following. -/
abbrev FollowSymmetric (users : List User) : Prop :=
  ∀ x ∈ users, ∀ y ∈ users, (x._id ∈ y.followers ↔ y._id ∈ x.following)

/-- Two outcomes with the same response and the same users, posts and comments. -/
abbrev SameOutcome (a b : Response × Store) : Prop :=
  a.1 = b.1 ∧ a.2.users = b.2.users ∧ a.2.posts = b.2.posts ∧ a.2.comments = b.2.comments

/-! ## Concrete documents used as test inputs -/

/-- The identifier whose last nibble is `d` and whose other nibbles are zero. -/
def oid (d : Fin 16) : ObjectId := ⟨List.replicate 23 0 ++ [d]⟩

/-- A user document with the given identifier, follow lists and saved posts. -/
def mkUser (id : ObjectId) (followers following posts savedPosts : List ObjectId) : User :=
  { _id := id, name := "name", username := "username", email := "user@example.com",
    password := "hash", passwordConfirm := none, profilePicture := none, bio := "",
    followers := followers, following := following, posts := posts,
    savedPosts := savedPosts, isVerified := true, otp := none, otpExpires := none,
    resetPasswordOTP := none, resetPasswordOTPExpires := none }

/-- A post document with the given identifier, owner, likes and comments. -/
def mkPost (id owner : ObjectId) (likes comments : List ObjectId) : Post :=
  { _id := id, caption := "caption", image := { url := "url", publicId := "pid" },
    user := owner, likes := likes, comments := comments }

/-- An environment in which every external call succeeds. -/
def envOk : Env :=
  { commentId := oid 12, notificationId := oid 13, now := 0,
    notificationSaves := fun _ => true, cloudinaryDestroys := fun _ => true }

/-- An environment in which saving a notification fails. -/
def envNoNotification : Env :=
  { commentId := oid 12, notificationId := oid 13, now := 0,
    notificationSaves := fun _ => false, cloudinaryDestroys := fun _ => true }

/-- A store in which user 1 lists user 2 in `following` while user 2 does not list
user 1 in `followers`. -/
def storeOneSided : Store :=
  { users := [mkUser (oid 1) [] [oid 2] [] [], mkUser (oid 2) [] [] [] []],
    posts := [], comments := [], notifications := [] }

/-- A store in which user 1 follows user 3 and user 2 is followed by user 3, with no
edge between users 1 and 2. -/
def storeNoEdge : Store :=
  { users := [mkUser (oid 1) [] [oid 3] [] [], mkUser (oid 2) [oid 3] [] [] [],
      mkUser (oid 3) [] [oid 2] [] []],
    posts := [], comments := [], notifications := [] }

/-- A store with one post, owned by user 1 and liked by users 2 and 3. -/
def storeLiked : Store :=
  { users := [mkUser (oid 1) [] [] [oid 5] [], mkUser (oid 2) [] [] [] []],
    posts := [mkPost (oid 5) (oid 1) [oid 2, oid 3] []],
    comments := [], notifications := [] }

/-- A store in which user 1 owns post 5 and wrote comment 7 on post 6 of user 2;
user 2 follows user 1, likes post 5 and has a notification about it. -/
def storeAccount : Store :=
  { users := [mkUser (oid 1) [oid 2] [] [oid 5] [], mkUser (oid 2) [] [oid 1] [oid 6] []],
    posts := [mkPost (oid 5) (oid 1) [oid 2] [], mkPost (oid 6) (oid 2) [oid 1] [oid 7]],
    comments := [{ _id := oid 7, text := "hi", user := oid 1, post := none, createdAt := 0 }],
    notifications :=
      [{ _id := oid 8, sender := some (oid 2), receiver := none, post := some (oid 5),
         comment := none, type := NotificationType.like, isRead := false, createdAt := 0 },
       { _id := oid 9, sender := some (oid 1), receiver := some (oid 2),
         post := some (oid 6), comment := some (oid 7), type := NotificationType.comment,
         isRead := false, createdAt := 0 }] }

/-- A store in which user 1 owns post 5 and user 2 has saved it. -/
def storeSaved : Store :=
  { users := [mkUser (oid 1) [] [] [oid 5] [], mkUser (oid 2) [] [] [] [oid 5]],
    posts := [mkPost (oid 5) (oid 1) [] []],
    comments := [], notifications := [] }

/-- A store with the single user whose identifier ends in the nibble `a`. -/
def storeSelf : Store :=
  { users := [mkUser (oid 10) [] [] [] []], posts := [], comments := [],
    notifications := [] }

/-- The user 1, not yet verified, holding the one-time passcode `otp`. -/
def unverifiedUser (otp : String) : User :=
  { _id := oid 1, name := "name", username := "username", email := "user@example.com",
    password := "hash", passwordConfirm := none, profilePicture := none, bio := "",
    followers := [], following := [], posts := [], savedPosts := [], isVerified := false,
    otp := some otp, otpExpires := some 1000, resetPasswordOTP := none,
    resetPasswordOTPExpires := none }

/-- A store in which user 1 holds the one-time passcode 111111. -/
def storeOtp : Store :=
  { users := [unverifiedUser "111111", mkUser (oid 2) [] [] [] []],
    posts := [], comments := [], notifications := [] }

/-- The store `storeOtp` with the passcode of user 1 replaced by 222222. -/
def storeOtpOther : Store :=
  { users := [unverifiedUser "222222", mkUser (oid 2) [] [] [] []],
    posts := [], comments := [], notifications := [] }

/-- A store in which users 1 and 2 follow each other and both follow user 3. -/
def storeMutual : Store :=
  { users := [mkUser (oid 1) [oid 2] [oid 2, oid 3] [] [],
              mkUser (oid 2) [oid 1] [oid 1, oid 3] [] [],
              mkUser (oid 3) [oid 1, oid 2] [] [] []],
    posts := [], comments := [], notifications := [] }

/-- A store in which user 1 has saved nothing and post 5 belongs to user 2. -/
def storeUnsaved : Store :=
  { users := [mkUser (oid 1) [] [] [] [], mkUser (oid 2) [] [] [oid 5] []],
    posts := [mkPost (oid 5) (oid 2) [] []],
    comments := [], notifications := [] }

/-! ## Identifiers and their string form -/

theorem hexVal_hexChar (d : Fin 16) : hexVal (hexChar d) = some d := by
  revert d; decide

theorem parseHex_map_hexChar (ds : List (Fin 16)) : parseHex (ds.map hexChar) = some ds := by
  induction ds with
  | nil => rfl
  | cons d ds ih => simp [parseHex, hexVal_hexChar, ih]

theorem castObjectId_toString (o : ObjectId) :
    castObjectId o.toString = if o.hex.length = 24 then some o else none := by
  unfold castObjectId ObjectId.toString
  simp [parseHex_map_hexChar]

theorem toString_injective {a b : ObjectId} (h : a.toString = b.toString) : a = b := by
  have h1 : parseHex (a.hex.map hexChar) = parseHex (b.hex.map hexChar) := by
    unfold ObjectId.toString at h
    have h2 := congrArg String.data h
    simp only at h2
    rw [h2]
  rw [parseHex_map_hexChar, parseHex_map_hexChar] at h1
  cases a; cases b
  simpa using h1

theorem toString_ne_of_cast {a b : ObjectId} {p : String} (hp : castObjectId p = some b)
    (hab : a ≠ b) : a.toString ≠ p := by
  intro h
  rw [← h, castObjectId_toString] at hp
  split at hp
  · exact hab (Option.some.inj hp)
  · exact absurd hp (by simp)

/-! ## Lookups after single-document updates -/

theorem find_updateOne_same {α : Type} (key : α → ObjectId) (f : α → α)
    (hf : ∀ d, key (f d) = key d) (id : ObjectId) (l : List α) :
    (updateOne (fun d => decide (key d = id)) f l).find? (fun d => decide (key d = id))
      = (l.find? (fun d => decide (key d = id))).map f := by
  induction l with
  | nil => rfl
  | cons d ds ih =>
    by_cases h : key d = id
    · simp [updateOne, h, hf]
    · simp [updateOne, h, ih]

theorem find_updateOne_ne {α : Type} (key : α → ObjectId) (f : α → α)
    (hf : ∀ d, key (f d) = key d) (id id2 : ObjectId) (hne : id2 ≠ id) (l : List α) :
    (updateOne (fun d => decide (key d = id)) f l).find? (fun d => decide (key d = id2))
      = l.find? (fun d => decide (key d = id2)) := by
  induction l with
  | nil => rfl
  | cons d ds ih =>
    by_cases h : key d = id
    · have h2 : ¬ key d = id2 := fun e => hne (e.symm.trans h)
      simp [updateOne, h, hf, Ne.symm hne]
    · by_cases h3 : key d = id2
      · simp only [updateOne, h, decide_False, Bool.false_eq_true, if_false]
        simp [h3]
      · simp [updateOne, h, h3, ih]

theorem findUser_id {users : List User} {id : ObjectId} {u : User}
    (h : findUser users id = some u) : u._id = id := by
  have := List.find?_some h
  simpa using this

theorem findPost_id {posts : List Post} {id : ObjectId} {p : Post}
    (h : findPost posts id = some p) : p._id = id := by
  have := List.find?_some h
  simpa using this

theorem findUser_updateOne_same (f : User → User) (hf : ∀ u, (f u)._id = u._id)
    (id : ObjectId) (l : List User) :
    findUser (updateOne (fun u => decide (u._id = id)) f l) id = (findUser l id).map f :=
  find_updateOne_same User._id f hf id l

theorem findUser_updateOne_ne (f : User → User) (hf : ∀ u, (f u)._id = u._id)
    (id id2 : ObjectId) (hne : id2 ≠ id) (l : List User) :
    findUser (updateOne (fun u => decide (u._id = id)) f l) id2 = findUser l id2 :=
  find_updateOne_ne User._id f hf id id2 hne l

theorem findPost_updateOne_same (f : Post → Post) (hf : ∀ u, (f u)._id = u._id)
    (id : ObjectId) (l : List Post) :
    findPost (updateOne (fun u => decide (u._id = id)) f l) id = (findPost l id).map f :=
  find_updateOne_same Post._id f hf id l

theorem findPost_updateOne_ne (f : Post → Post) (hf : ∀ u, (f u)._id = u._id)
    (id id2 : ObjectId) (hne : id2 ≠ id) (l : List Post) :
    findPost (updateOne (fun u => decide (u._id = id)) f l) id2 = findPost l id2 :=
  find_updateOne_ne Post._id f hf id id2 hne l

/-! ## Array operators -/

theorem mem_pull {x y : ObjectId} {arr : List ObjectId} :
    y ∈ pull x arr ↔ y ∈ arr ∧ y ≠ x := by
  simp [pull]

theorem mem_addToSet {x y : ObjectId} {arr : List ObjectId} :
    y ∈ addToSet x arr ↔ y ∈ arr ∨ y = x := by
  unfold addToSet
  split
  · constructor
    · exact Or.inl
    · rintro (h | rfl)
      · exact h
      · assumption
  · simp

theorem pull_addToSet_of_not_mem {x : ObjectId} {arr : List ObjectId} (h : x ∉ arr) :
    pull x (addToSet x arr) = arr := by
  have h2 : ∀ a ∈ arr, ¬ a = x := fun a ha e => h (e ▸ ha)
  simp [addToSet, pull, h, List.filter_append, List.filter_eq_self]
  exact h2

/-! ## The effect of one follow toggle -/

/-- One completed `followUnfollow` between two different existing users: the response
is 200, the actor's `following` and the target's `followers` are pulled from or added
to according to `target.followers`, and a notification is attempted on the follow
branch only. -/
theorem followUnfollow_effect (env : Env) (s : Store) (A B : ObjectId) (p : String)
    (a b : User) (hp : castObjectId p = some B) (hAB : A ≠ B)
    (ha : findUser s.users A = some a) (hb : findUser s.users B = some b) :
    (followUnfollow env s A p).1.statusCode = 200 ∧
    findUser (followUnfollow env s A p).2.users A = some { a with
      following := if A ∈ b.followers then pull B a.following else addToSet B a.following } ∧
    findUser (followUnfollow env s A p).2.users B = some { b with
      followers := if A ∈ b.followers then pull A b.followers else addToSet A b.followers } ∧
    (followUnfollow env s A p).2.notifications =
      (if A ∈ b.followers then s.notifications
       else createdNotification env s.notifications
        { sender := some A, receiver := some B, reciever := none, post := none,
          comment := none, type := NotificationType.follow, isRead := none }) := by
  have hne : A.toString ≠ p := toString_ne_of_cast hp hAB
  have hbid : b._id = B := findUser_id hb
  have hBA : B ≠ A := Ne.symm hAB
  unfold followUnfollow
  rw [if_neg hne]
  simp only [hp, hb, hbid]
  by_cases hf : A ∈ b.followers
  · simp [hf, findUser_updateOne_same, findUser_updateOne_ne, hAB, hBA, ha, hb, success]
    exact hbid
  · simp [hf, findUser_updateOne_same, findUser_updateOne_ne, hAB, hBA, ha, hb, success]
    exact hbid

/-! ## C1: the follow toggle applied twice -/

/-- C1, as stated, fails: in a store where A.following holds B but B.followers lacks A,
both toggles complete with status 200, the first one follows (B.followers decides) and
the second unfollows, so A.following goes from [B] to the empty list. -/
theorem followUnfollow_twice_one_sided_not_restored :
    oid 1 ≠ oid 2 ∧
    (findUser storeOneSided.users (oid 1)).map User.following = some [oid 2] ∧
    (findUser storeOneSided.users (oid 2)).map User.followers = some [] ∧
    (followUnfollow envOk storeOneSided (oid 1) "000000000000000000000002").1.statusCode = 200 ∧
    (followUnfollow envOk
      (followUnfollow envOk storeOneSided (oid 1) "000000000000000000000002").2
      (oid 1) "000000000000000000000002").1.statusCode = 200 ∧
    (findUser (followUnfollow envOk
      (followUnfollow envOk storeOneSided (oid 1) "000000000000000000000002").2
      (oid 1) "000000000000000000000002").2.users (oid 1)).map User.following = some [] := by
  decide

/-- C1, amended: for distinct existing users A and B in a store where A is in
B.followers exactly when B is in A.following, two completed toggles in a row (both
answer 200) leave A.following and B.followers with the same members as before, and
when the edge was absent the two lists are restored exactly. -/
theorem followUnfollow_twice_restores (env1 env2 : Env) (s : Store) (A B : ObjectId)
    (p : String) (a b : User) (hp : castObjectId p = some B) (hAB : A ≠ B)
    (ha : findUser s.users A = some a) (hb : findUser s.users B = some b)
    (hsym : A ∈ b.followers ↔ B ∈ a.following) :
    (followUnfollow env1 s A p).1.statusCode = 200 ∧
    (followUnfollow env2 (followUnfollow env1 s A p).2 A p).1.statusCode = 200 ∧
    ∃ a2 b2 : User,
      findUser (followUnfollow env2 (followUnfollow env1 s A p).2 A p).2.users A = some a2 ∧
      findUser (followUnfollow env2 (followUnfollow env1 s A p).2 A p).2.users B = some b2 ∧
      (∀ x, x ∈ a2.following ↔ x ∈ a.following) ∧
      (∀ x, x ∈ b2.followers ↔ x ∈ b.followers) ∧
      (A ∉ b.followers → a2.following = a.following ∧ b2.followers = b.followers) := by
  obtain ⟨h1, hA1, hB1, _⟩ := followUnfollow_effect env1 s A B p a b hp hAB ha hb
  obtain ⟨h2, hA2, hB2, _⟩ :=
    followUnfollow_effect env2 (followUnfollow env1 s A p).2 A B p _ _ hp hAB hA1 hB1
  refine ⟨h1, h2, _, _, hA2, hB2, ?_⟩
  by_cases hf : A ∈ b.followers
  · have hB : B ∈ a.following := hsym.mp hf
    have hnot : A ∉ pull A b.followers := fun h => (mem_pull.mp h).2 rfl
    simp only [hf, if_true, hnot, if_false]
    refine ⟨fun x => ?_, fun x => ?_, fun h => absurd True.intro h⟩
    · rw [mem_addToSet, mem_pull]
      constructor
      · rintro (⟨h, _⟩ | rfl)
        · exact h
        · exact hB
      · intro h
        by_cases e : x = B
        · exact Or.inr e
        · exact Or.inl ⟨h, e⟩
    · rw [mem_addToSet, mem_pull]
      constructor
      · rintro (⟨h, _⟩ | rfl)
        · exact h
        · exact hf
      · intro h
        by_cases e : x = A
        · exact Or.inr e
        · exact Or.inl ⟨h, e⟩
  · have hB : B ∉ a.following := fun h => hf (hsym.mpr h)
    have hin : A ∈ addToSet A b.followers := mem_addToSet.mpr (Or.inr rfl)
    simp [hf, hin, pull_addToSet_of_not_mem hf, pull_addToSet_of_not_mem hB]

/-- Witness for `followUnfollow_twice_restores`: users 1 and 2 of `storeNoEdge`. -/
theorem followUnfollow_twice_restores_witness :
    castObjectId "000000000000000000000002" = some (oid 2) ∧ oid 1 ≠ oid 2 ∧
    findUser storeNoEdge.users (oid 1) = some (mkUser (oid 1) [] [oid 3] [] []) ∧
    findUser storeNoEdge.users (oid 2) = some (mkUser (oid 2) [oid 3] [] [] []) ∧
    ∃ a2 b2 : User,
      findUser (followUnfollow envOk
        (followUnfollow envNoNotification storeNoEdge (oid 1) "000000000000000000000002").2
        (oid 1) "000000000000000000000002").2.users (oid 1) = some a2 ∧
      findUser (followUnfollow envOk
        (followUnfollow envNoNotification storeNoEdge (oid 1) "000000000000000000000002").2
        (oid 1) "000000000000000000000002").2.users (oid 2) = some b2 ∧
      (∀ x, x ∈ a2.following ↔ x ∈ [oid 3]) ∧ (∀ x, x ∈ b2.followers ↔ x ∈ [oid 3]) :=
  have h := followUnfollow_twice_restores envNoNotification envOk storeNoEdge (oid 1) (oid 2)
    "000000000000000000000002" (mkUser (oid 1) [] [oid 3] [] [])
    (mkUser (oid 2) [oid 3] [] [] []) (by decide) (by decide) (by decide) (by decide)
    (by decide)
  ⟨by decide, by decide, by decide, by decide,
    h.2.2.imp fun _ h2 => h2.imp fun _ h3 => ⟨h3.1, h3.2.1, h3.2.2.1, h3.2.2.2.1⟩⟩

/-! ## C2: the like toggle applied twice -/

theorem count_pull_self (x : ObjectId) (arr : List ObjectId) : (pull x arr).count x = 0 := by
  rw [List.count_eq_zero]
  intro h
  exact (mem_pull.mp h).2 rfl

theorem count_pull_ne {x y : ObjectId} (arr : List ObjectId) (h : y ≠ x) :
    (pull x arr).count y = arr.count y := by
  unfold pull
  exact List.count_filter (by simpa using h)

theorem count_addToSet_self_of_not_mem {x : ObjectId} {arr : List ObjectId} (h : x ∉ arr) :
    (addToSet x arr).count x = 1 := by
  unfold addToSet
  rw [if_neg h, List.count_append, List.count_eq_zero.mpr h]
  simp

theorem addToSet_pull_perm {x : ObjectId} {arr : List ObjectId} (hmem : x ∈ arr)
    (hcount : arr.count x ≤ 1) : (addToSet x (pull x arr)).Perm arr := by
  rw [List.perm_iff_count]
  intro y
  have hnot : x ∉ pull x arr := fun h => (mem_pull.mp h).2 rfl
  unfold addToSet
  rw [if_neg hnot, List.count_append]
  by_cases e : y = x
  · subst e
    have hpos : 0 < arr.count y := List.count_pos_iff.mpr hmem
    rw [count_pull_self]
    simp
    omega
  · rw [count_pull_ne arr e]
    simp [List.count_singleton, e]

/-- One `likeOrDislikePost` on an existing post: the response is 200 and the likes
of the post are pulled from or added to according to whether the actor is in them. -/
theorem likeOrDislikePost_effect (env : Env) (s : Store) (U pid : ObjectId) (p : String)
    (post : Post) (hp : castObjectId p = some pid)
    (hpost : findPost s.posts pid = some post) :
    (likeOrDislikePost env s U p).1.statusCode = 200 ∧
    findPost (likeOrDislikePost env s U p).2.posts pid = some { post with
      likes := if U ∈ post.likes then pull U post.likes else addToSet U post.likes } := by
  unfold likeOrDislikePost
  simp only [hp, hpost]
  by_cases hf : U ∈ post.likes
  · simp [hf, findPost_updateOne_same, hpost, success]
  · simp [hf, findPost_updateOne_same, hpost, success]

/-- C2: for every user U and existing post P, two `likeOrDislikePost(U,P)` in a row
both answer 200; after the first and after the second P.likes holds U at most once;
the likes after the second call have the same members as before the first; if U was
in the likes at most once before, they are the same multiset as before; and if U was
not in them, the same list. -/
theorem likeOrDislikePost_twice (env1 env2 : Env) (s : Store) (U pid : ObjectId)
    (p : String) (post : Post) (hp : castObjectId p = some pid)
    (hpost : findPost s.posts pid = some post) :
    (likeOrDislikePost env1 s U p).1.statusCode = 200 ∧
    (likeOrDislikePost env2 (likeOrDislikePost env1 s U p).2 U p).1.statusCode = 200 ∧
    ∃ post1 post2 : Post,
      findPost (likeOrDislikePost env1 s U p).2.posts pid = some post1 ∧
      findPost (likeOrDislikePost env2 (likeOrDislikePost env1 s U p).2 U p).2.posts pid
        = some post2 ∧
      post1.likes.count U ≤ 1 ∧ post2.likes.count U ≤ 1 ∧
      (∀ x, x ∈ post2.likes ↔ x ∈ post.likes) ∧
      (post.likes.count U ≤ 1 → post2.likes.Perm post.likes) ∧
      (U ∉ post.likes → post2.likes = post.likes) := by
  obtain ⟨hs1, h1⟩ := likeOrDislikePost_effect env1 s U pid p post hp hpost
  obtain ⟨hs2, h2⟩ :=
    likeOrDislikePost_effect env2 (likeOrDislikePost env1 s U p).2 U pid p _ hp h1
  refine ⟨hs1, hs2, _, _, h1, h2, ?_⟩
  by_cases hf : U ∈ post.likes
  · have hnot : U ∉ pull U post.likes := fun h => (mem_pull.mp h).2 rfl
    simp only [hf, if_true, hnot, if_false]
    refine ⟨?_, ?_, ?_, ?_, ?_⟩
    · rw [count_pull_self]; exact Nat.zero_le 1
    · rw [count_addToSet_self_of_not_mem hnot]
    · intro x
      rw [mem_addToSet, mem_pull]
      constructor
      · rintro (⟨h, _⟩ | rfl)
        · exact h
        · exact hf
      · intro h
        by_cases e : x = U
        · exact Or.inr e
        · exact Or.inl ⟨h, e⟩
    · exact fun hc => addToSet_pull_perm hf hc
    · exact fun h => absurd True.intro h
  · have hin : U ∈ addToSet U post.likes := mem_addToSet.mpr (Or.inr rfl)
    have hc : (addToSet U post.likes).count U = 1 := count_addToSet_self_of_not_mem hf
    have hz : post.likes.count U = 0 := List.count_eq_zero.mpr hf
    simp [hf, hin, pull_addToSet_of_not_mem hf, hc, hz]

/-- Witness for `likeOrDislikePost_twice`: user 2 toggles twice on the post of
`storeLiked`, whose likes are [2, 3]. -/
theorem likeOrDislikePost_twice_witness :
    castObjectId "000000000000000000000005" = some (oid 5) ∧
    findPost storeLiked.posts (oid 5) = some (mkPost (oid 5) (oid 1) [oid 2, oid 3] []) ∧
    ∃ post1 post2 : Post,
      findPost (likeOrDislikePost envOk storeLiked (oid 2)
        "000000000000000000000005").2.posts (oid 5) = some post1 ∧
      findPost (likeOrDislikePost envOk (likeOrDislikePost envOk storeLiked (oid 2)
        "000000000000000000000005").2 (oid 2) "000000000000000000000005").2.posts (oid 5)
        = some post2 ∧
      post1.likes.count (oid 2) ≤ 1 ∧ post2.likes.count (oid 2) ≤ 1 ∧
      post2.likes.Perm [oid 2, oid 3] :=
  have h := likeOrDislikePost_twice envOk envOk storeLiked (oid 2) (oid 5)
    "000000000000000000000005" (mkPost (oid 5) (oid 1) [oid 2, oid 3] [])
    (by decide) (by decide)
  ⟨by decide, by decide,
    h.2.2.imp fun _ h2 => h2.imp fun _ h3 =>
      ⟨h3.1, h3.2.1, h3.2.2.1, h3.2.2.2.1, h3.2.2.2.2.2.1 (by decide)⟩⟩

/-! ## C3: what account deletion removes -/

theorem mem_of_mem_deleteOne {α : Type} (filter : α → Bool) {x : α} {l : List α}
    (h : x ∈ deleteOne filter l) : x ∈ l := by
  induction l with
  | nil => simp [deleteOne] at h
  | cons d ds ih =>
    unfold deleteOne at h
    split at h
    · exact List.mem_cons_of_mem _ h
    · rcases List.mem_cons.mp h with rfl | h2
      · exact List.mem_cons_self _ _
      · exact List.mem_cons_of_mem _ (ih h2)

theorem mem_deleteMany {α : Type} (filter : α → Bool) {x : α} {l : List α} :
    x ∈ deleteMany filter l ↔ x ∈ l ∧ filter x = false := by
  simp [deleteMany]

theorem mem_updateMany {α : Type} (filter : α → Bool) (update : α → α) {x : α}
    {l : List α} :
    x ∈ updateMany filter update l ↔
      ∃ d ∈ l, x = if filter d then update d else d := by
  unfold updateMany
  rw [List.mem_map]
  constructor
  · rintro ⟨d, hd, rfl⟩
    exact ⟨d, hd, rfl⟩
  · rintro ⟨d, hd, rfl⟩
    exact ⟨d, hd, rfl⟩

/-- C3: when `deleteAccount(U)` runs on a store where U exists it answers 200, and in
the resulting store no user has U in `followers` or `following`, no post has U in
`likes` or as its `user`, no comment has U as its `user`, and no notification has U
as sender or receiver or refers to a post that U owned before the call. -/
theorem deleteAccount_removes_references (s : Store) (U : ObjectId) (u : User)
    (hu : findUser s.users U = some u) :
    (deleteAccount s U).1.statusCode = 200 ∧
    (∀ v ∈ (deleteAccount s U).2.users, U ∉ v.followers ∧ U ∉ v.following) ∧
    (∀ q ∈ (deleteAccount s U).2.posts, U ∉ q.likes ∧ q.user ≠ U) ∧
    (∀ c ∈ (deleteAccount s U).2.comments, c.user ≠ U) ∧
    (∀ n ∈ (deleteAccount s U).2.notifications,
      n.sender ≠ some U ∧ n.receiver ≠ some U ∧
      ∀ q ∈ s.posts, q.user = U → n.post ≠ some q._id) := by
  unfold deleteAccount
  rw [hu]
  refine ⟨rfl, ?_, ?_, ?_, ?_⟩
  · intro v hv
    have hv2 := mem_of_mem_deleteOne _ hv
    rw [mem_updateMany] at hv2
    obtain ⟨w, hw, rfl⟩ := hv2
    rw [mem_updateMany] at hw
    obtain ⟨z, _, rfl⟩ := hw
    by_cases h1 : U ∈ z.following <;> by_cases h2 : U ∈ z.followers <;>
      simp [h1, h2, mem_pull]
  · intro q hq
    rw [mem_updateMany] at hq
    obtain ⟨w, hw, rfl⟩ := hq
    rw [mem_updateMany] at hw
    obtain ⟨z, hz, rfl⟩ := hw
    rw [mem_deleteMany] at hz
    have hzu : z.user ≠ U := by simpa using hz.2
    constructor
    · split_ifs <;> simp_all [mem_pull]
    · split_ifs <;> simp_all
  · intro c hc
    rw [mem_deleteMany] at hc
    have hc2 := hc.1
    rw [mem_deleteMany] at hc2
    simpa using hc2.2
  · intro n hn
    rw [mem_deleteMany] at hn
    obtain ⟨hn1, hpost⟩ := hn
    rw [mem_deleteMany] at hn1
    obtain ⟨hn2, hsender⟩ := hn1
    rw [mem_deleteMany] at hn2
    obtain ⟨_, hreceiver⟩ := hn2
    refine ⟨by simpa using hsender, by simpa using hreceiver, ?_⟩
    intro q hq hqu hnp
    rw [hnp] at hpost
    simp only [decide_eq_false_iff_not, List.mem_dedup, List.mem_map, List.mem_filter,
      decide_eq_true_eq] at hpost
    exact hpost ⟨q, ⟨hq, hqu⟩, rfl⟩

/-- Witness for `deleteAccount_removes_references`: user 1 of `storeAccount`. -/
theorem deleteAccount_removes_references_witness :
    findUser storeAccount.users (oid 1) = some (mkUser (oid 1) [oid 2] [] [oid 5] []) ∧
    (deleteAccount storeAccount (oid 1)).1.statusCode = 200 ∧
    (∀ v ∈ (deleteAccount storeAccount (oid 1)).2.users,
      oid 1 ∉ v.followers ∧ oid 1 ∉ v.following) ∧
    (∀ q ∈ (deleteAccount storeAccount (oid 1)).2.posts, oid 1 ∉ q.likes ∧ q.user ≠ oid 1) ∧
    (∀ c ∈ (deleteAccount storeAccount (oid 1)).2.comments, c.user ≠ oid 1) ∧
    (∀ n ∈ (deleteAccount storeAccount (oid 1)).2.notifications,
      n.sender ≠ some (oid 1) ∧ n.receiver ≠ some (oid 1) ∧
      ∀ q ∈ storeAccount.posts, q.user = oid 1 → n.post ≠ some q._id) :=
  ⟨by decide, deleteAccount_removes_references storeAccount (oid 1)
    (mkUser (oid 1) [oid 2] [] [oid 5] []) (by decide)⟩

/-! ## C4: references that account deletion leaves behind -/

/-- C4 at its failing input: `deleteAccount` of user 1 on `storeSaved` answers 200 and
deletes post 5, which user 1 owned, yet the surviving user 2 still has post 5 in
`savedPosts`. -/
theorem deleteAccount_leaves_saved_post :
    findPost storeSaved.posts (oid 5) = some (mkPost (oid 5) (oid 1) [] []) ∧
    (deleteAccount storeSaved (oid 1)).1.statusCode = 200 ∧
    findPost (deleteAccount storeSaved (oid 1)).2.posts (oid 5) = none ∧
    findUser (deleteAccount storeSaved (oid 1)).2.users (oid 1) = none ∧
    (findUser (deleteAccount storeSaved (oid 1)).2.users (oid 2)).map User.savedPosts
      = some [oid 5] := by
  decide

/-! ## C5: what post deletion removes -/

/-- C5 at its failing input: user 2 comments on post 5 of `storeLiked` through
`addComment` (201, comment 12 listed in the post), then the owner, user 1, deletes the
post (200).  The post is gone and no user lists it, but comment 12 is still in the
comment collection: it was stored without a `post` field, so the filter
`{ post: id }` of `deletePost` does not match it. -/
theorem deletePost_leaves_comment :
    (addComment envOk storeLiked (oid 2) "000000000000000000000005" "hi").1.statusCode = 201 ∧
    (findPost (addComment envOk storeLiked (oid 2) "000000000000000000000005" "hi").2.posts
      (oid 5)).map Post.comments = some [oid 12] ∧
    (deletePost envOk (addComment envOk storeLiked (oid 2) "000000000000000000000005" "hi").2
      (oid 1) "000000000000000000000005").1.statusCode = 200 ∧
    (deletePost envOk (addComment envOk storeLiked (oid 2) "000000000000000000000005" "hi").2
      (oid 1) "000000000000000000000005").2.posts = [] ∧
    (deletePost envOk (addComment envOk storeLiked (oid 2) "000000000000000000000005" "hi").2
      (oid 1) "000000000000000000000005").2.users.map User.posts = [[], []] ∧
    (deletePost envOk (addComment envOk storeLiked (oid 2) "000000000000000000000005" "hi").2
      (oid 1) "000000000000000000000005").2.comments
      = [{ _id := oid 12, text := "hi", user := oid 2, post := none, createdAt := 0 }] := by
  decide

/-! ## C6: post deletion by a non-owner, and of a missing post -/

/-- C6: for a well-formed post identifier, (1) when it resolves to a post whose owner
is not the actor, `deletePost` leaves the whole store unchanged, and, the owner being
an existing user, answers 403 Forbidden; (2) when it resolves to no post, `deletePost`
answers 404 NotFound and leaves the store unchanged. -/
theorem deletePost_rejected (env : Env) (s : Store) (actor pid : ObjectId) (p : String)
    (hp : castObjectId p = some pid) :
    (∀ post : Post, findPost s.posts pid = some post → post.user ≠ actor →
      (deletePost env s actor p).2 = s ∧
      (∀ owner : User, findUser s.users post.user = some owner →
        (deletePost env s actor p).1.statusCode = 403 ∧
        (deletePost env s actor p).1
          = appError "You are not authorized to delete this post" 403)) ∧
    (findPost s.posts pid = none →
      (deletePost env s actor p).1.statusCode = 404 ∧
      (deletePost env s actor p).1 = appError "Post not found" 404 ∧
      (deletePost env s actor p).2 = s) := by
  constructor
  · intro post hpost hne
    unfold deletePost
    simp only [hp, hpost]
    cases hown : findUser s.users post.user with
    | none => exact ⟨rfl, fun owner h => absurd h (by simp)⟩
    | some owner =>
      have hid : owner._id = post.user := findUser_id hown
      have hstr : owner._id.toString ≠ actor.toString := by
        intro h
        exact hne (hid ▸ toString_injective h)
      simp [hstr, appError]
  · intro hnone
    unfold deletePost
    simp [hp, hnone, appError]

/-- Witness for `deletePost_rejected`: on `storeLiked`, user 2 tries to delete post 5
of user 1, and user 1 tries to delete post 6, which does not exist. -/
theorem deletePost_rejected_witness :
    castObjectId "000000000000000000000005" = some (oid 5) ∧
    castObjectId "000000000000000000000006" = some (oid 6) ∧
    (deletePost envOk storeLiked (oid 2) "000000000000000000000005").2 = storeLiked ∧
    (deletePost envOk storeLiked (oid 2) "000000000000000000000005").1.statusCode = 403 ∧
    (deletePost envOk storeLiked (oid 1) "000000000000000000000006").1.statusCode = 404 ∧
    (deletePost envOk storeLiked (oid 1) "000000000000000000000006").2 = storeLiked :=
  have h5 := (deletePost_rejected envOk storeLiked (oid 2) (oid 5)
    "000000000000000000000005" (by decide)).1
    (mkPost (oid 5) (oid 1) [oid 2, oid 3] []) (by decide) (by decide)
  have h6 := (deletePost_rejected envOk storeLiked (oid 1) (oid 6)
    "000000000000000000000006" (by decide)).2 (by decide)
  ⟨by decide, by decide, h5.1,
    (h5.2 (mkUser (oid 1) [] [] [oid 5] []) (by decide)).1, h6.1, h6.2.2⟩

/-! ## C7: the notification of a like -/

/-- The notifications after a `likeOrDislikePost` on an existing post: each one was
there before or has no receiver. -/
theorem likeOrDislikePost_new_notification (env : Env) (s : Store) (U pid : ObjectId)
    (p : String) (post : Post) (hp : castObjectId p = some pid)
    (hpost : findPost s.posts pid = some post) :
    ∀ n ∈ (likeOrDislikePost env s U p).2.notifications,
      n ∈ s.notifications ∨ n.receiver = none := by
  unfold likeOrDislikePost createdNotification
  simp only [hp, hpost]
  intro n hn
  split_ifs at hn
  · exact Or.inl hn
  · rcases List.mem_append.mp hn with h | h
    · exact Or.inl h
    · right
      rw [List.mem_singleton.mp h]
  · exact Or.inl hn
  · exact Or.inl hn

/-- C7 at its failing input: on `storeSaved`, where post 5 is owned by user 1 and has
no likes, user 2 likes the post.  The answer is 200 and the likes become [2], but
whatever the outcome of the save no notification has a receiver; when the save goes
through, the one notification stored has sender 2, post 5, type like and no
receiver (the caller passes the owner under the key `reciever`). -/
theorem likeOrDislikePost_notification_lacks_receiver (env : Env) :
    (findPost storeSaved.posts (oid 5)).map Post.user = some (oid 1) ∧
    (findPost storeSaved.posts (oid 5)).map Post.likes = some [] ∧
    (likeOrDislikePost env storeSaved (oid 2) "000000000000000000000005").1.statusCode = 200 ∧
    (findPost (likeOrDislikePost env storeSaved (oid 2)
      "000000000000000000000005").2.posts (oid 5)).map Post.likes = some [oid 2] ∧
    (∀ n ∈ (likeOrDislikePost env storeSaved (oid 2)
      "000000000000000000000005").2.notifications, n.receiver = none) ∧
    (likeOrDislikePost envOk storeSaved (oid 2) "000000000000000000000005").2.notifications
      = [{ _id := oid 13, sender := some (oid 2), receiver := none, post := some (oid 5),
           comment := none, type := NotificationType.like, isRead := false,
           createdAt := 0 }] := by
  have hc : castObjectId "000000000000000000000005" = some (oid 5) := by decide
  have hf : findPost storeSaved.posts (oid 5) = some (mkPost (oid 5) (oid 1) [] []) := by
    decide
  obtain ⟨h1, h2⟩ := likeOrDislikePost_effect env storeSaved (oid 2) (oid 5) _ _ hc hf
  refine ⟨by decide, by decide, h1, ?_, ?_, by decide⟩
  · rw [h2]; decide
  · intro n hn
    rcases likeOrDislikePost_new_notification env storeSaved (oid 2) (oid 5) _ _ hc hf n hn
      with h | h
    · exact absurd h (by simp [storeSaved])
    · exact h

/-! ## C8: follow, then unfollow -/

/-- C8: for distinct existing users A and B with A.following and B.followers empty
and a notification save that goes through, `followUnfollow(A,B)` makes B.followers
[A] and A.following [B] and appends exactly the notification from A to B of type
follow, unread; a second `followUnfollow(A,B)` makes both lists empty and leaves the
notification collection, the earlier notification included, as the first call left
it. -/
theorem followUnfollow_then_unfollow (env1 env2 : Env) (s : Store) (A B : ObjectId)
    (p : String) (a b : User) (hp : castObjectId p = some B) (hAB : A ≠ B)
    (ha : findUser s.users A = some a) (hb : findUser s.users B = some b)
    (hfollowing : a.following = []) (hfollowers : b.followers = [])
    (hsave : env1.notificationSaves
      { _id := env1.notificationId, sender := some A, receiver := some B, post := none,
        comment := none, type := NotificationType.follow, isRead := false,
        createdAt := env1.now } = true) :
    (∃ a1 b1 : User,
      findUser (followUnfollow env1 s A p).2.users A = some a1 ∧
      findUser (followUnfollow env1 s A p).2.users B = some b1 ∧
      a1.following = [B] ∧ b1.followers = [A]) ∧
    (followUnfollow env1 s A p).2.notifications = s.notifications ++
      [{ _id := env1.notificationId, sender := some A, receiver := some B, post := none,
         comment := none, type := NotificationType.follow, isRead := false,
         createdAt := env1.now }] ∧
    (∃ a2 b2 : User,
      findUser (followUnfollow env2 (followUnfollow env1 s A p).2 A p).2.users A = some a2 ∧
      findUser (followUnfollow env2 (followUnfollow env1 s A p).2 A p).2.users B = some b2 ∧
      a2.following = [] ∧ b2.followers = []) ∧
    (followUnfollow env2 (followUnfollow env1 s A p).2 A p).2.notifications
      = (followUnfollow env1 s A p).2.notifications := by
  obtain ⟨_, hA1, hB1, hN1⟩ := followUnfollow_effect env1 s A B p a b hp hAB ha hb
  obtain ⟨_, hA2, hB2, hN2⟩ :=
    followUnfollow_effect env2 (followUnfollow env1 s A p).2 A B p _ _ hp hAB hA1 hB1
  have hnot : A ∉ b.followers := by rw [hfollowers]; simp
  have hin : A ∈ addToSet A b.followers := mem_addToSet.mpr (Or.inr rfl)
  refine ⟨⟨_, _, hA1, hB1, ?_, ?_⟩, ?_, ⟨_, _, hA2, hB2, ?_, ?_⟩, ?_⟩
  · simp [hnot, hfollowing, addToSet]
  · simp [hfollowers, addToSet]
  · rw [hN1, if_neg hnot]
    unfold createdNotification
    simp only [Option.getD_none]
    rw [if_pos hsave]
  · simp [hnot, hin, hfollowing, addToSet, pull]
  · simp [hfollowers, addToSet, pull]
  · rw [hN2]
    simp only [hnot, if_false, hin, if_true]

/-- Witness for `followUnfollow_then_unfollow`: users 1 and 2 of `storeSaved`. -/
theorem followUnfollow_then_unfollow_witness :
    castObjectId "000000000000000000000002" = some (oid 2) ∧ oid 1 ≠ oid 2 ∧
    (mkUser (oid 1) [] [] [oid 5] []).following = [] ∧
    (mkUser (oid 2) [] [] [] [oid 5]).followers = [] ∧
    (∃ a1 b1 : User,
      findUser (followUnfollow envOk storeSaved (oid 1)
        "000000000000000000000002").2.users (oid 1) = some a1 ∧
      findUser (followUnfollow envOk storeSaved (oid 1)
        "000000000000000000000002").2.users (oid 2) = some b1 ∧
      a1.following = [oid 2] ∧ b1.followers = [oid 1]) ∧
    (followUnfollow envOk storeSaved (oid 1) "000000000000000000000002").2.notifications
      = storeSaved.notifications ++
      [{ _id := envOk.notificationId, sender := some (oid 1), receiver := some (oid 2),
         post := none, comment := none, type := NotificationType.follow, isRead := false,
         createdAt := envOk.now }] ∧
    (∃ a2 b2 : User,
      findUser (followUnfollow envNoNotification
        (followUnfollow envOk storeSaved (oid 1) "000000000000000000000002").2 (oid 1)
        "000000000000000000000002").2.users (oid 1) = some a2 ∧
      findUser (followUnfollow envNoNotification
        (followUnfollow envOk storeSaved (oid 1) "000000000000000000000002").2 (oid 1)
        "000000000000000000000002").2.users (oid 2) = some b2 ∧
      a2.following = [] ∧ b2.followers = []) ∧
    (followUnfollow envNoNotification
      (followUnfollow envOk storeSaved (oid 1) "000000000000000000000002").2 (oid 1)
      "000000000000000000000002").2.notifications
      = (followUnfollow envOk storeSaved (oid 1)
        "000000000000000000000002").2.notifications :=
  ⟨by decide, by decide, rfl, rfl,
    followUnfollow_then_unfollow envOk envNoNotification storeSaved (oid 1) (oid 2)
      "000000000000000000000002" (mkUser (oid 1) [] [] [oid 5] [])
      (mkUser (oid 2) [] [] [] [oid 5]) (by decide) (by decide) (by decide) (by decide)
      rfl rfl rfl⟩

/-! ## C9: following oneself -/

/-- C9 at its failing input: the actor is user `…0a` and the request parameter is
the same identifier written with a capital `A`.  The parameter casts to the identifier
of the actor, but it differs from the string form of that identifier, so the
self-check passes, the answer is 200 and the actor ends up in their own `followers`
and `following`, with a notification from the actor to the actor.  With the
lower-case spelling the answer is 400 and the store is unchanged. -/
theorem followUnfollow_self_by_upper_case :
    castObjectId "00000000000000000000000A" = some (oid 10) ∧
    (oid 10).toString = "00000000000000000000000a" ∧
    (followUnfollow envOk storeSelf (oid 10) "00000000000000000000000A").1.statusCode = 200 ∧
    (findUser (followUnfollow envOk storeSelf (oid 10)
      "00000000000000000000000A").2.users (oid 10)).map User.followers = some [oid 10] ∧
    (findUser (followUnfollow envOk storeSelf (oid 10)
      "00000000000000000000000A").2.users (oid 10)).map User.following = some [oid 10] ∧
    (followUnfollow envOk storeSelf (oid 10) "00000000000000000000000A").2.notifications
      = [{ _id := oid 13, sender := some (oid 10), receiver := some (oid 10), post := none,
           comment := none, type := NotificationType.follow, isRead := false,
           createdAt := 0 }] ∧
    (followUnfollow envOk storeSelf (oid 10) "00000000000000000000000a").1.statusCode = 400 ∧
    (followUnfollow envOk storeSelf (oid 10) "00000000000000000000000a").2 = storeSelf := by
  decide

/-! ## C10: the comment that `addComment` stores -/

/-- C10 at its failing input: user 2 comments "hi" on post 5 of `storeLiked`.  The
answer is 201, the identifier of the new comment is appended to the comments of the
post, and the comment collection gains exactly one comment, by user 2 with text
"hi" — but that comment has no owning post. -/
theorem addComment_stores_no_post :
    (addComment envOk storeLiked (oid 2) "000000000000000000000005" "hi").1.statusCode = 201 ∧
    (findPost (addComment envOk storeLiked (oid 2) "000000000000000000000005" "hi").2.posts
      (oid 5)).map Post.comments = some ([] ++ [oid 12]) ∧
    (addComment envOk storeLiked (oid 2) "000000000000000000000005" "hi").2.comments
      = storeLiked.comments ++
        [{ _id := oid 12, text := "hi", user := oid 2, post := none, createdAt := 0 }] ∧
    ((addComment envOk storeLiked (oid 2) "000000000000000000000005" "hi").2.comments.filter
      (fun c => decide (c.post = some (oid 5)))) = [] := by
  decide

/-! ## C11: the outcome of the notification write -/

theorem followUnfollow_sameOutcome (env : Env) (f : Notification → Bool) (s : Store)
    (U : ObjectId) (p : String) :
    SameOutcome (followUnfollow { env with notificationSaves := f } s U p)
      (followUnfollow env s U p) := by
  unfold SameOutcome followUnfollow
  by_cases h1 : U.toString = p
  · simp [h1]
  · simp only [h1, if_false]
    cases h2 : castObjectId p with
    | none => simp [*]
    | some B =>
      cases h3 : findUser s.users B with
      | none => simp [*]
      | some b => by_cases h4 : U ∈ b.followers <;> simp [*]

theorem likeOrDislikePost_sameOutcome (env : Env) (f : Notification → Bool) (s : Store)
    (U : ObjectId) (p : String) :
    SameOutcome (likeOrDislikePost { env with notificationSaves := f } s U p)
      (likeOrDislikePost env s U p) := by
  unfold SameOutcome likeOrDislikePost
  cases h2 : castObjectId p with
  | none => simp [*]
  | some B =>
    cases h3 : findPost s.posts B with
    | none => simp [*]
    | some b => by_cases h4 : U ∈ b.likes <;> simp [*]

theorem saveOrUnsave_sameOutcome (env : Env) (f : Notification → Bool) (s : Store)
    (U : ObjectId) (p : String) :
    SameOutcome (saveOrUnsave { env with notificationSaves := f } s U p)
      (saveOrUnsave env s U p) := by
  unfold SameOutcome saveOrUnsave
  cases h3 : findUser s.users U with
  | none => simp [*]
  | some u =>
    cases h2 : castObjectId p with
    | none => simp [*]
    | some B =>
      cases h5 : findPost s.posts B with
      | none => simp [*]
      | some b => by_cases h4 : p ∈ u.savedPosts.map ObjectId.toString <;> simp [*]

theorem addComment_sameOutcome (env : Env) (f : Notification → Bool) (s : Store)
    (U : ObjectId) (p text : String) :
    SameOutcome (addComment { env with notificationSaves := f } s U p text)
      (addComment env s U p text) := by
  unfold SameOutcome addComment
  cases h2 : castObjectId p with
  | none => simp [*]
  | some B =>
    cases h3 : findPost s.posts B with
    | none => simp [*]
    | some b => by_cases h4 : text = "" <;> simp [*]

/-- C11: for follow, like, save and comment, for every store, actor and request, the
response and the resulting users, posts and comments are the same whatever the
outcome of saving the notification: replacing the outcome `env.notificationSaves`
by any other outcome `f` changes none of them.  (`createdNotification` is total: it
catches the failure of the save.) -/
theorem notification_outcome_irrelevant (env : Env) (f : Notification → Bool) (s : Store)
    (U : ObjectId) (p text : String) :
    SameOutcome (followUnfollow { env with notificationSaves := f } s U p)
      (followUnfollow env s U p) ∧
    SameOutcome (likeOrDislikePost { env with notificationSaves := f } s U p)
      (likeOrDislikePost env s U p) ∧
    SameOutcome (saveOrUnsave { env with notificationSaves := f } s U p)
      (saveOrUnsave env s U p) ∧
    SameOutcome (addComment { env with notificationSaves := f } s U p text)
      (addComment env s U p text) :=
  ⟨followUnfollow_sameOutcome env f s U p, likeOrDislikePost_sameOutcome env f s U p,
    saveOrUnsave_sameOutcome env f s U p, addComment_sameOutcome env f s U p text⟩

/-! ## C12: what the returned user view shows -/

/-- C12 at its failing input: `storeOtp` and `storeOtpOther` differ only in the
one-time passcode of user 1.  User 1 follows user 2 in each; both calls answer 200,
and the returned views differ: each carries the passcode (and its expiry) of the
store it came from.  Only `password` is left out of the view. -/
theorem followUnfollow_view_shows_otp :
    storeOtpOther.users = storeOtp.users.map
      (fun u => if u._id = oid 1 then { u with otp := some "222222" } else u) ∧
    (followUnfollow envOk storeOtp (oid 1) "000000000000000000000002").1.statusCode = 200 ∧
    (followUnfollow envOk storeOtpOther (oid 1) "000000000000000000000002").1.statusCode
      = 200 ∧
    (followUnfollow envOk storeOtp (oid 1) "000000000000000000000002").1.user.map
      UserView.otp = some (some "111111") ∧
    (followUnfollow envOk storeOtpOther (oid 1) "000000000000000000000002").1.user.map
      UserView.otp = some (some "222222") ∧
    (followUnfollow envOk storeOtp (oid 1) "000000000000000000000002").1.user.map
      UserView.otpExpires = some (some 1000) ∧
    (followUnfollow envOk storeOtp (oid 1) "000000000000000000000002").1.user
      ≠ (followUnfollow envOk storeOtpOther (oid 1) "000000000000000000000002").1.user := by
  decide

/-! ## C13: marking notifications as read -/

theorem updateMany_isRead (U : ObjectId) (ns : List Notification) :
    updateMany
      (fun n : Notification => decide (n.receiver = some U) && decide (n.isRead = false))
      (fun n => { n with isRead := true }) ns
    = ns.map (fun n => if n.receiver = some U then { n with isRead := true } else n) := by
  unfold updateMany
  apply List.map_congr_left
  intro n _
  by_cases h1 : n.receiver = some U
  · cases hr : n.isRead
    · simp [h1, hr]
    · cases n
      simp_all
  · simp [h1]

/-- C13: `markNotificationAsRead(receiver)` answers 200; the notifications afterwards
are the ones before, in the same order, each one addressed to the receiver with
`isRead` true and its other fields as before, each other one unchanged; users, posts
and comments are unchanged; and a second call leaves the store exactly as the first
left it. -/
theorem markNotificationAsRead_marks_and_is_idempotent (s : Store) (U : ObjectId) :
    (markNotificationAsRead s U).1.statusCode = 200 ∧
    (markNotificationAsRead s U).2.notifications = s.notifications.map
      (fun n => if n.receiver = some U then { n with isRead := true } else n) ∧
    (∀ n ∈ (markNotificationAsRead s U).2.notifications,
      n.receiver = some U → n.isRead = true) ∧
    (markNotificationAsRead s U).2.users = s.users ∧
    (markNotificationAsRead s U).2.posts = s.posts ∧
    (markNotificationAsRead s U).2.comments = s.comments ∧
    (markNotificationAsRead (markNotificationAsRead s U).2 U).2
      = (markNotificationAsRead s U).2 := by
  have key : ∀ t : Store, (markNotificationAsRead t U).2 = { t with
      notifications := t.notifications.map
        (fun n => if n.receiver = some U then { n with isRead := true } else n) } := by
    intro t
    unfold markNotificationAsRead
    rw [updateMany_isRead]
  refine ⟨rfl, ?_, ?_, ?_, ?_, ?_, ?_⟩
  · rw [key]
  · rw [key]
    intro n hn hr
    obtain ⟨m, _, rfl⟩ := List.mem_map.mp hn
    by_cases h : m.receiver = some U
    · simp [h]
    · simp only [h, if_false] at hr
  · rw [key]
  · rw [key]
  · rw [key]
  · rw [key, key]
    simp only [List.map_map]
    congr 1
    apply List.map_congr_left
    intro n _
    by_cases h : n.receiver = some U <;> simp [h]

/-! ## C14: follow-graph symmetry -/

theorem updateOne_eq_map {α : Type} (key : α → ObjectId) (f : α → α) (K : ObjectId)
    (l : List α) (hU : (l.map key).Nodup) :
    updateOne (fun d => decide (key d = K)) f l
      = l.map (fun d => if key d = K then f d else d) := by
  induction l with
  | nil => rfl
  | cons d ds ih =>
    rw [List.map_cons, List.nodup_cons] at hU
    by_cases h : key d = K
    · have hds : ds.map (fun d => if key d = K then f d else d) = ds := by
        conv_rhs => rw [← List.map_id ds]
        apply List.map_congr_left
        intro e he
        have hne : key e ≠ K := fun hk => hU.1 (h ▸ hk ▸ List.mem_map_of_mem key he)
        simp [hne]
      simp [updateOne, h, hds]
    · simp [updateOne, h, ih hU.2]

theorem deleteOne_sublist {α : Type} (filter : α → Bool) (l : List α) :
    (deleteOne filter l).Sublist l := by
  induction l with
  | nil => exact List.Sublist.slnil
  | cons d ds ih =>
    unfold deleteOne
    split
    · exact List.sublist_cons_self d ds
    · exact List.Sublist.cons₂ d ih

theorem key_ne_of_mem_deleteOne {α : Type} (key : α → ObjectId) (K : ObjectId)
    (l : List α) (hU : (l.map key).Nodup) {x : α}
    (hx : x ∈ deleteOne (fun d => decide (key d = K)) l) : key x ≠ K := by
  induction l with
  | nil => simp [deleteOne] at hx
  | cons d ds ih =>
    rw [List.map_cons, List.nodup_cons] at hU
    by_cases h : key d = K
    · simp only [deleteOne, h, decide_True, if_true] at hx
      intro hk
      exact hU.1 (h ▸ hk ▸ List.mem_map_of_mem key hx)
    · simp only [deleteOne, h, decide_False, Bool.false_eq_true, if_false] at hx
      rcases List.mem_cons.mp hx with rfl | h2
      · exact h
      · exact ih hU.2 h2

/-- Toggling the edge from A to B on both sides keeps the follow graph symmetric:
`hA` rewrites A.following by `tf` and `hB` rewrites B.followers by `tg`, each leaving
other members alone and agreeing on whether the edge is there afterwards. -/
theorem followSymmetric_toggle (l : List User) (A B : ObjectId)
    (tf tg : List ObjectId → List ObjectId) (e : Prop) (hA hB : User → User)
    (hAid : ∀ u, (hA u)._id = u._id) (hAfollowers : ∀ u, (hA u).followers = u.followers)
    (hAfollowing : ∀ u, (hA u).following = if u._id = A then tf u.following else u.following)
    (hBid : ∀ u, (hB u)._id = u._id) (hBfollowing : ∀ u, (hB u).following = u.following)
    (hBfollowers : ∀ u, (hB u).followers = if u._id = B then tg u.followers else u.followers)
    (htf : ∀ arr z, z ≠ B → (z ∈ tf arr ↔ z ∈ arr)) (htfB : ∀ arr, B ∈ tf arr ↔ e)
    (htg : ∀ arr z, z ≠ A → (z ∈ tg arr ↔ z ∈ arr)) (htgA : ∀ arr, A ∈ tg arr ↔ e)
    (hS : FollowSymmetric l) :
    FollowSymmetric ((l.map hA).map hB) := by
  intro x2 hx2 y2 hy2
  rw [List.map_map] at hx2 hy2
  obtain ⟨x, hx, rfl⟩ := List.mem_map.mp hx2
  obtain ⟨y, hy, rfl⟩ := List.mem_map.mp hy2
  have h := hS x hx y hy
  simp only [Function.comp, hBid, hAid, hBfollowing, hAfollowing, hBfollowers, hAfollowers]
  by_cases hxA : x._id = A <;> by_cases hyB : y._id = B
  · rw [if_pos hyB, if_pos hxA, hxA, hyB, htgA, htfB]
  · rw [if_neg hyB, if_pos hxA, htf _ _ hyB]
    exact h
  · rw [if_pos hyB, if_neg hxA, htg _ _ hxA]
    exact h
  · rw [if_neg hyB, if_neg hxA]
    exact h

theorem follow_toggle_preserves (l : List User) (A B : ObjectId)
    (tf tg : List ObjectId → List ObjectId) (e : Prop)
    (htf : ∀ arr z, z ≠ B → (z ∈ tf arr ↔ z ∈ arr)) (htfB : ∀ arr, B ∈ tf arr ↔ e)
    (htg : ∀ arr z, z ≠ A → (z ∈ tg arr ↔ z ∈ arr)) (htgA : ∀ arr, A ∈ tg arr ↔ e)
    (hU : UniqueIds l) (hS : FollowSymmetric l) :
    UniqueIds (updateOne (fun u : User => decide (u._id = B))
        (fun u => { u with followers := tg u.followers })
        (updateOne (fun u : User => decide (u._id = A))
          (fun u => { u with following := tf u.following }) l)) ∧
    FollowSymmetric (updateOne (fun u : User => decide (u._id = B))
        (fun u => { u with followers := tg u.followers })
        (updateOne (fun u : User => decide (u._id = A))
          (fun u => { u with following := tf u.following }) l)) := by
  have e1 := updateOne_eq_map User._id (fun u => { u with following := tf u.following }) A l hU
  rw [e1]
  have ids1 : (l.map (fun d => if d._id = A then
      ({ d with following := tf d.following } : User) else d)).map User._id
      = l.map User._id := by
    rw [List.map_map]
    apply List.map_congr_left
    intro u _
    by_cases h : u._id = A <;> simp [h]
  have hU1 : UniqueIds (l.map (fun d => if d._id = A then
      ({ d with following := tf d.following } : User) else d)) := by
    unfold UniqueIds
    rw [ids1]
    exact hU
  have e2 := updateOne_eq_map User._id (fun u => { u with followers := tg u.followers }) B _ hU1
  rw [e2]
  constructor
  · unfold UniqueIds
    have ids2 : ∀ m : List User, (m.map (fun d => if d._id = B then
        ({ d with followers := tg d.followers } : User) else d)).map User._id
        = m.map User._id := by
      intro m
      rw [List.map_map]
      apply List.map_congr_left
      intro u _
      by_cases h : u._id = B <;> simp [h]
    rw [ids2, ids1]
    exact hU
  · apply followSymmetric_toggle l A B tf tg e _ _ _ _ _ _ _ _ htf htfB htg htgA hS
    · intro u; by_cases h : u._id = A <;> simp [h]
    · intro u; by_cases h : u._id = A <;> simp [h]
    · intro u; by_cases h : u._id = A <;> simp [h]
    · intro u; by_cases h : u._id = B <;> simp [h]
    · intro u; by_cases h : u._id = B <;> simp [h]
    · intro u; by_cases h : u._id = B <;> simp [h]

theorem followUnfollow_users (env : Env) (s : Store) (A : ObjectId) (p : String) :
    (followUnfollow env s A p).2.users = s.users ∨
    ∃ B, (followUnfollow env s A p).2.users
        = updateOne (fun u : User => decide (u._id = B))
          (fun u => { u with followers := pull A u.followers })
          (updateOne (fun u : User => decide (u._id = A))
            (fun u => { u with following := pull B u.following }) s.users) ∨
      (followUnfollow env s A p).2.users
        = updateOne (fun u : User => decide (u._id = B))
          (fun u => { u with followers := addToSet A u.followers })
          (updateOne (fun u : User => decide (u._id = A))
            (fun u => { u with following := addToSet B u.following }) s.users) := by
  unfold followUnfollow
  by_cases h1 : A.toString = p
  · simp [h1]
  · simp only [h1, if_false]
    cases h2 : castObjectId p with
    | none => simp [*]
    | some B =>
      cases h3 : findUser s.users B with
      | none => simp [*]
      | some b =>
        have hb : b._id = B := findUser_id h3
        refine Or.inr ⟨B, ?_⟩
        by_cases h4 : A ∈ b.followers <;> simp [*]

theorem deleteAccount_users (s : Store) (U : ObjectId) :
    (deleteAccount s U).2.users = s.users ∨
    (deleteAccount s U).2.users
      = deleteOne (fun u : User => decide (u._id = U))
        (updateMany (fun u : User => decide (U ∈ u.followers))
          (fun u => { u with followers := pull U u.followers })
          (updateMany (fun u : User => decide (U ∈ u.following))
            (fun u => { u with following := pull U u.following }) s.users)) := by
  unfold deleteAccount
  cases h : findUser s.users U with
  | none => exact Or.inl rfl
  | some u => exact Or.inr rfl

/-- Removing U from every `following` (by `f`) and every `followers` (by `g`) keeps
the follow graph symmetric among the users other than U. -/
theorem followSymmetric_remove (l : List User) (U : ObjectId) (f g : User → User)
    (hfid : ∀ u, (f u)._id = u._id) (hffollowers : ∀ u, (f u).followers = u.followers)
    (hffollowing : ∀ u z, z ∈ (f u).following ↔ z ∈ u.following ∧ z ≠ U)
    (hgid : ∀ u, (g u)._id = u._id) (hgfollowing : ∀ u, (g u).following = u.following)
    (hgfollowers : ∀ u z, z ∈ (g u).followers ↔ z ∈ u.followers ∧ z ≠ U)
    (hS : FollowSymmetric l) :
    ∀ x ∈ (l.map f).map g, ∀ y ∈ (l.map f).map g, x._id ≠ U → y._id ≠ U →
      (x._id ∈ y.followers ↔ y._id ∈ x.following) := by
  intro x2 hx2 y2 hy2
  rw [List.map_map] at hx2 hy2
  obtain ⟨x, hx, rfl⟩ := List.mem_map.mp hx2
  obtain ⟨y, hy, rfl⟩ := List.mem_map.mp hy2
  have h := hS x hx y hy
  simp only [Function.comp, hgid, hfid, hgfollowing, hgfollowers, hffollowers, hffollowing]
  intro hxU hyU
  constructor
  · rintro ⟨h5, _⟩
    exact ⟨h.mp h5, hyU⟩
  · rintro ⟨h5, _⟩
    exact ⟨h.mpr h5, hxU⟩

theorem deleteAccount_cascade_preserves (l : List User) (U : ObjectId)
    (hU : UniqueIds l) (hS : FollowSymmetric l) :
    UniqueIds (deleteOne (fun u : User => decide (u._id = U))
        (updateMany (fun u : User => decide (U ∈ u.followers))
          (fun u => { u with followers := pull U u.followers })
          (updateMany (fun u : User => decide (U ∈ u.following))
            (fun u => { u with following := pull U u.following }) l))) ∧
    FollowSymmetric (deleteOne (fun u : User => decide (u._id = U))
        (updateMany (fun u : User => decide (U ∈ u.followers))
          (fun u => { u with followers := pull U u.followers })
          (updateMany (fun u : User => decide (U ∈ u.following))
            (fun u => { u with following := pull U u.following }) l))) := by
  unfold updateMany
  have hsym := followSymmetric_remove l U
    (fun d : User => if decide (U ∈ d.following) = true then
      { d with following := pull U d.following } else d)
    (fun d : User => if decide (U ∈ d.followers) = true then
      { d with followers := pull U d.followers } else d)
    (by intro u; by_cases h : U ∈ u.following <;> simp [h])
    (by intro u; by_cases h : U ∈ u.following <;> simp [h])
    (by
      intro u z
      by_cases h : U ∈ u.following
      · simp [h, mem_pull]
      · simp only [h, decide_False, Bool.false_eq_true, if_false]
        exact ⟨fun hz => ⟨hz, fun e => h (e ▸ hz)⟩, And.left⟩)
    (by intro u; by_cases h : U ∈ u.followers <;> simp [h])
    (by intro u; by_cases h : U ∈ u.followers <;> simp [h])
    (by
      intro u z
      by_cases h : U ∈ u.followers
      · simp [h, mem_pull]
      · simp only [h, decide_False, Bool.false_eq_true, if_false]
        exact ⟨fun hz => ⟨hz, fun e => h (e ▸ hz)⟩, And.left⟩)
    hS
  have ids : ((l.map (fun d : User => if decide (U ∈ d.following) = true then
      { d with following := pull U d.following } else d)).map
      (fun d : User => if decide (U ∈ d.followers) = true then
        { d with followers := pull U d.followers } else d)).map User._id
      = l.map User._id := by
    rw [List.map_map, List.map_map]
    apply List.map_congr_left
    intro u _
    by_cases h1 : U ∈ u.following <;> by_cases h2 : U ∈ u.followers <;> simp [h1, h2]
  have hU2 : UniqueIds ((l.map (fun d : User => if decide (U ∈ d.following) = true then
      { d with following := pull U d.following } else d)).map
      (fun d : User => if decide (U ∈ d.followers) = true then
        { d with followers := pull U d.followers } else d)) := by
    unfold UniqueIds
    rw [ids]
    exact hU
  constructor
  · exact List.Nodup.sublist ((deleteOne_sublist _ _).map User._id) hU2
  · intro x2 hx2 y2 hy2
    exact hsym x2 (mem_of_mem_deleteOne _ hx2) y2 (mem_of_mem_deleteOne _ hy2)
      (key_ne_of_mem_deleteOne User._id U _ hU2 hx2)
      (key_ne_of_mem_deleteOne User._id U _ hU2 hy2)

/-- C14: in a store whose users have distinct identifiers and whose follow graph is
symmetric (for all users X and Y, X is in Y.followers exactly when Y is in
X.following), both properties hold again after any `followUnfollow` and, among the
users that remain, after any `deleteAccount`. -/
theorem follow_symmetry_preserved (s : Store) (hU : UniqueIds s.users)
    (hS : FollowSymmetric s.users) :
    (∀ (env : Env) (A : ObjectId) (p : String),
      UniqueIds (followUnfollow env s A p).2.users ∧
      FollowSymmetric (followUnfollow env s A p).2.users) ∧
    (∀ U : ObjectId,
      UniqueIds (deleteAccount s U).2.users ∧
      FollowSymmetric (deleteAccount s U).2.users) := by
  constructor
  · intro env A p
    rcases followUnfollow_users env s A p with h | ⟨B, h | h⟩
    · rw [h]; exact ⟨hU, hS⟩
    · rw [h]
      exact follow_toggle_preserves s.users A B (pull B) (pull A) False
        (fun arr z hz => by rw [mem_pull]; exact ⟨And.left, fun h => ⟨h, hz⟩⟩)
        (fun arr => by rw [mem_pull]; exact ⟨fun h => h.2 rfl, False.elim⟩)
        (fun arr z hz => by rw [mem_pull]; exact ⟨And.left, fun h => ⟨h, hz⟩⟩)
        (fun arr => by rw [mem_pull]; exact ⟨fun h => h.2 rfl, False.elim⟩)
        hU hS
    · rw [h]
      exact follow_toggle_preserves s.users A B (addToSet B) (addToSet A) True
        (fun arr z hz => by
          rw [mem_addToSet]; exact ⟨fun h => h.resolve_right hz, Or.inl⟩)
        (fun arr => by rw [mem_addToSet]; exact ⟨fun _ => trivial, fun _ => Or.inr rfl⟩)
        (fun arr z hz => by
          rw [mem_addToSet]; exact ⟨fun h => h.resolve_right hz, Or.inl⟩)
        (fun arr => by rw [mem_addToSet]; exact ⟨fun _ => trivial, fun _ => Or.inr rfl⟩)
        hU hS
  · intro U
    rcases deleteAccount_users s U with h | h
    · rw [h]; exact ⟨hU, hS⟩
    · rw [h]
      exact deleteAccount_cascade_preserves s.users U hU hS

/-- Witness for `follow_symmetry_preserved`: on `storeMutual`, user 1 unfollows user 2,
user 3 follows user 1, and user 2 deletes the account. -/
theorem follow_symmetry_preserved_witness :
    UniqueIds storeMutual.users ∧ FollowSymmetric storeMutual.users ∧
    FollowSymmetric
      (followUnfollow envOk storeMutual (oid 1) "000000000000000000000002").2.users ∧
    FollowSymmetric
      (followUnfollow envOk storeMutual (oid 3) "000000000000000000000001").2.users ∧
    FollowSymmetric (deleteAccount storeMutual (oid 2)).2.users :=
  have h := follow_symmetry_preserved storeMutual (by decide) (by decide)
  ⟨by decide, by decide, (h.1 envOk (oid 1) "000000000000000000000002").2,
    (h.1 envOk (oid 3) "000000000000000000000001").2, (h.2 (oid 2)).2⟩

/-! ## C15: two concurrent toggles -/

theorem count_addToSet_le_one {x : ObjectId} {arr : List ObjectId}
    (h : arr.count x ≤ 1) : (addToSet x arr).count x ≤ 1 := by
  by_cases hm : x ∈ arr
  · simpa [addToSet, hm] using h
  · rw [count_addToSet_self_of_not_mem hm]

theorem count_pull_le_one (x : ObjectId) (arr : List ObjectId) :
    (pull x arr).count x ≤ 1 := by
  rw [count_pull_self]
  exact Nat.zero_le 1

/-- Whatever the order in which the store receives them, `$addToSet` and `$pull`
writes of one identifier keep it at most once in the array: this covers the writes
of `followUnfollow` on `following` and `followers`. -/
theorem applyWrites_at_most_once (x : ObjectId) (ws : List SetWrite) (arr : List ObjectId)
    (h : arr.count x ≤ 1) : (applyWrites x arr ws).count x ≤ 1 := by
  induction ws generalizing arr with
  | nil => exact h
  | cons w ws ih =>
    cases w with
    | addToSet => exact ih _ (count_addToSet_le_one h)
    | pull => exact ih _ (count_pull_le_one x arr)

/-- The handler `likeOrDislikePost` writes what its read step followed by its write
step write. -/
theorem likeOrDislikePost_posts_eq_run (env : Env) (s : Store) (U pid : ObjectId)
    (p : String) (hp : castObjectId p = some pid) :
    (likeOrDislikePost env s U p).2.posts
      = (likeRun U pid [ToggleStep.read Request.first, ToggleStep.write Request.first]
          s).posts := by
  unfold likeOrDislikePost likeRun
  simp only [hp, List.foldl, likeStep, likeRead]
  cases h : findPost s.posts pid with
  | none => simp
  | some post => by_cases hl : U ∈ post.likes <;> simp [likeWrite, hl]

/-- The handler `saveOrUnsave` writes to the users what its read step followed by its
write step write. -/
theorem saveOrUnsave_users_eq_run (env : Env) (s : Store) (U pid : ObjectId)
    (p : String) (hp : castObjectId p = some pid) :
    (saveOrUnsave env s U p).2.users
      = (saveOrUnsaveRun U p [ToggleStep.read Request.first, ToggleStep.write Request.first]
          s).users := by
  unfold saveOrUnsave saveOrUnsaveRun
  simp only [hp, List.foldl, saveOrUnsaveStep, saveOrUnsaveRead]
  cases h : findUser s.users U with
  | none => simp
  | some u =>
    by_cases hl : p ∈ u.savedPosts.map ObjectId.toString
    · simp [saveOrUnsaveWrite, hl, -List.mem_map]
    · cases hq : findPost s.posts pid <;> simp [saveOrUnsaveWrite, hl, -List.mem_map]

theorem likeStep_at_most_once (U pid : ObjectId) (st : TwoRequests) (step : ToggleStep)
    (h : ∃ post, findPost st.store.posts pid = some post ∧ post.likes.count U ≤ 1) :
    ∃ post, findPost (likeStep U pid st step).store.posts pid = some post ∧
      post.likes.count U ≤ 1 := by
  obtain ⟨post, hpost, hc⟩ := h
  have hw : ∀ d : Bool, ∃ post2,
      findPost (likeWrite st.store U pid d).posts pid = some post2 ∧
      post2.likes.count U ≤ 1 := by
    intro d
    cases d
    · refine ⟨{ post with likes := addToSet U post.likes }, ?_, count_addToSet_le_one hc⟩
      simp [likeWrite, findPost_updateOne_same, hpost]
    · refine ⟨{ post with likes := pull U post.likes }, ?_, count_pull_le_one U _⟩
      simp [likeWrite, findPost_updateOne_same, hpost]
  cases step with
  | read r => cases r <;> exact ⟨post, hpost, hc⟩
  | write r =>
    cases r with
    | first =>
      cases hd : st.first with
      | none => simpa [likeStep, hd] using ⟨post, hpost, hc⟩
      | some d => simpa [likeStep, hd] using hw d
    | second =>
      cases hd : st.second with
      | none => simpa [likeStep, hd] using ⟨post, hpost, hc⟩
      | some d => simpa [likeStep, hd] using hw d

/-- For every schedule of the read and write steps of two concurrent
`likeOrDislikePost(U,P)`, a post that held U at most once in `likes` still does. -/
theorem likeRun_at_most_once (U pid : ObjectId) (steps : List ToggleStep) (s : Store)
    (post : Post) (hpost : findPost s.posts pid = some post)
    (hc : post.likes.count U ≤ 1) :
    ∃ post2, findPost (likeRun U pid steps s).posts pid = some post2 ∧
      post2.likes.count U ≤ 1 := by
  unfold likeRun
  have gen : ∀ (steps : List ToggleStep) (st : TwoRequests),
      (∃ post, findPost st.store.posts pid = some post ∧ post.likes.count U ≤ 1) →
      ∃ post, findPost (steps.foldl (likeStep U pid) st).store.posts pid = some post ∧
        post.likes.count U ≤ 1 := by
    intro steps
    induction steps with
    | nil => intro st h; exact h
    | cons step rest ih =>
      intro st h
      exact ih _ (likeStep_at_most_once U pid st step h)
  exact gen steps _ ⟨post, hpost, hc⟩

/-- C15 at its failing input: user 1 of `storeUnsaved`, who has saved nothing, sends
`saveOrUnsave` for post 5 twice at once.  When both requests read before either
writes, both find the post unsaved and both push it: `savedPosts` ends as [5, 5].
(Run one after the other, the two requests save and unsave, as the handler itself
does.) -/
theorem saveOrUnsave_concurrent_duplicate :
    (findUser storeUnsaved.users (oid 1)).map User.savedPosts = some [] ∧
    (findUser (saveOrUnsaveRun (oid 1) "000000000000000000000005"
      [ToggleStep.read Request.first, ToggleStep.read Request.second,
       ToggleStep.write Request.first, ToggleStep.write Request.second]
      storeUnsaved).users (oid 1)).map User.savedPosts = some [oid 5, oid 5] ∧
    (findUser (saveOrUnsaveRun (oid 1) "000000000000000000000005"
      [ToggleStep.read Request.first, ToggleStep.write Request.first,
       ToggleStep.read Request.second, ToggleStep.write Request.second]
      storeUnsaved).users (oid 1)).map User.savedPosts = some [] ∧
    (saveOrUnsave envOk (saveOrUnsave envOk storeUnsaved (oid 1)
      "000000000000000000000005").2 (oid 1) "000000000000000000000005").2.users
      = (saveOrUnsaveRun (oid 1) "000000000000000000000005"
      [ToggleStep.read Request.first, ToggleStep.write Request.first,
       ToggleStep.read Request.second, ToggleStep.write Request.second]
      storeUnsaved).users := by
  decide

/-! ## C16: saving a post that does not exist -/

theorem toString_ne_of_not_mem {p : String} {pid : ObjectId} {arr : List ObjectId}
    (hp : castObjectId p = some pid) (hnot : pid ∉ arr) :
    p ∉ arr.map ObjectId.toString := by
  intro h
  obtain ⟨e, he, rfl⟩ := List.mem_map.mp h
  rw [castObjectId_toString] at hp
  split at hp
  · exact hnot (Option.some.inj hp ▸ he)
  · exact absurd hp (by simp)

/-- C16: for an existing actor U and a well-formed post identifier that resolves to no
post and is not in U.savedPosts, `saveOrUnsave` answers with the 500 of an uncaught
exception (not 404), and the store it leaves has the identifier appended to
U.savedPosts, still resolves it to no post, and has the posts, comments and
notifications it had. -/
theorem saveOrUnsave_missing_post (env : Env) (s : Store) (U pid : ObjectId)
    (p : String) (u : User) (hp : castObjectId p = some pid)
    (hu : findUser s.users U = some u) (hnot : pid ∉ u.savedPosts)
    (hnone : findPost s.posts pid = none) :
    (saveOrUnsave env s U p).1 = thrown "Cannot read properties of null" ∧
    (saveOrUnsave env s U p).1.statusCode = 500 ∧
    (saveOrUnsave env s U p).1.statusCode ≠ 404 ∧
    findUser (saveOrUnsave env s U p).2.users U
      = some { u with savedPosts := u.savedPosts ++ [pid] } ∧
    findPost (saveOrUnsave env s U p).2.posts pid = none ∧
    (saveOrUnsave env s U p).2.posts = s.posts ∧
    (saveOrUnsave env s U p).2.comments = s.comments ∧
    (saveOrUnsave env s U p).2.notifications = s.notifications := by
  have hraw : p ∉ u.savedPosts.map ObjectId.toString := toString_ne_of_not_mem hp hnot
  have heq : saveOrUnsave env s U p = (thrown "Cannot read properties of null",
      { users := updateOne (fun u : User => decide (u._id = U))
          (fun u => { u with savedPosts := u.savedPosts ++ [pid] }) s.users,
        posts := s.posts, comments := s.comments, notifications := s.notifications }) := by
    unfold saveOrUnsave
    simp [hu, hp, hnone, hraw, -List.mem_map]
  rw [heq]
  refine ⟨rfl, rfl, by simp [thrown], ?_, hnone, rfl, rfl, rfl⟩
  simp [findUser_updateOne_same, hu]

/-- Witness for `saveOrUnsave_missing_post`: user 1 of `storeUnsaved` saves post 6,
which does not exist. -/
theorem saveOrUnsave_missing_post_witness :
    castObjectId "000000000000000000000006" = some (oid 6) ∧
    findUser storeUnsaved.users (oid 1) = some (mkUser (oid 1) [] [] [] []) ∧
    findPost storeUnsaved.posts (oid 6) = none ∧
    (saveOrUnsave envOk storeUnsaved (oid 1) "000000000000000000000006").1.statusCode
      = 500 ∧
    findUser (saveOrUnsave envOk storeUnsaved (oid 1)
      "000000000000000000000006").2.users (oid 1)
      = some { mkUser (oid 1) [] [] [] [] with savedPosts := [] ++ [oid 6] } ∧
    findPost (saveOrUnsave envOk storeUnsaved (oid 1)
      "000000000000000000000006").2.posts (oid 6) = none :=
  have h := saveOrUnsave_missing_post envOk storeUnsaved (oid 1) (oid 6)
    "000000000000000000000006" (mkUser (oid 1) [] [] [] []) (by decide) (by decide)
    (by decide) (by decide)
  ⟨by decide, by decide, by decide, h.2.1, h.2.2.2.1, h.2.2.2.2.1⟩

end MySocial
